import Mathlib

/-! FLAC decoder callbacks of the flacng plugin.

A shallow embedding of `src/flacng/seekable_stream_callbacks.c`: the read, seek, tell,
eof, length, write, error and metadata callbacks that the plugin registers with the FLAC
stream decoder, together with the shared `callback_info` context they operate on.

Conventions of the embedding.

* C integers are mathematical integers; every place where the C code converts a value to a
  fixed-width type is an explicit reduction (`toShort`, `toUnsigned`, `toInt`, `toInt64`,
  `toUInt64`).  The data model is LP64 (`long` and `size_t` have 64 bits, `int` and
  `unsigned` have 32 bits, `short` has 16 bits); out-of-range conversions to a signed type
  reduce the value modulo 2^N, as gcc and clang define them.
* The fields of `FLAC__FrameHeader` and `FLAC__StreamMetadata_StreamInfo` follow the public
  libFLAC API (`unsigned` for block size, channels, sample rate and bits per sample,
  `FLAC__uint64` for the total sample count).
* The virtual file layer (`vfs_fread`, `vfs_fseek`, `vfs_ftell`, `vfs_feof`, `vfs_fsize`) is
  external.  It is a parameter `Vfs` of the embedding; every invocation of one of its
  primitives is recorded in a trace, so that "the primitive is (not) invoked" is a statement
  about the trace.
* Memory reached through a pointer is a total function of the index.  The logging macros
  `FLACNG_ERROR` and `AUDDBG` have no effect on the modelled state and are left out, as is
  the unused `decoder` argument of every callback.  Arguments are handed to the primitives
  of the file layer as written in the source; their prototypes are external.
* The two loops of `write_callback` are recursive functions that spend one unit of fuel per
  evaluation of the loop test.  `channel_loop_eq` and `sample_loop_eq` show that the fuel
  `write_callback` supplies is never exhausted for a 32-bit channel count: any larger amount
  gives the same result.
* The decoder drives the callbacks: `invoke` applies one callback to the shared state (the
  context and the state outside it) and `run` applies a sequence of them in order.
* Frames reach `write_callback` from the decoder only.  The statements that depend on the
  word count of a frame or on its channel loop quantify over the frames the decoder delivers
  (`deliverable`: at most `FLAC__MAX_BLOCK_SIZE` samples in at most `FLAC__MAX_CHANNELS`
  channels); the lemmas they rest on hold for wider ranges, and `write_callback_wide_frame`
  and `write_callback_long_frame` record what the function does on two frames beyond them.
-/

namespace Flacng

/-! ## Conversions between C integer types -/

/-- Conversion to `short`: the value reduced modulo 2^16 into the range -32768 .. 32767. -/
def toShort (x : Int) : Int := (x + 32768) % 65536 - 32768

/-- Conversion to `unsigned`: the value reduced modulo 2^32. -/
def toUnsigned (x : Int) : Int := x % 4294967296

/-- Conversion to `int`: the value reduced modulo 2^32 into the range -2^31 .. 2^31 - 1. -/
def toInt (x : Int) : Int := (x + 2147483648) % 4294967296 - 2147483648

/-- Conversion to `int64_t`: the value reduced modulo 2^64 into the range -2^63 .. 2^63 - 1. -/
def toInt64 (x : Int) : Int :=
  (x + 9223372036854775808) % 18446744073709551616 - 9223372036854775808

/-- Conversion to `FLAC__uint64` or `size_t`: the value reduced modulo 2^64. -/
def toUInt64 (x : Int) : Int := x % 18446744073709551616

/-! ## Types of the FLAC decoder interface -/

/-- Result of the read callback. -/
inductive FLAC__StreamDecoderReadStatus where
  | FLAC__STREAM_DECODER_READ_STATUS_CONTINUE
  | FLAC__STREAM_DECODER_READ_STATUS_END_OF_STREAM
  | FLAC__STREAM_DECODER_READ_STATUS_ABORT
  deriving DecidableEq, Repr

/-- Result of the seek callback. -/
inductive FLAC__StreamDecoderSeekStatus where
  | FLAC__STREAM_DECODER_SEEK_STATUS_OK
  | FLAC__STREAM_DECODER_SEEK_STATUS_ERROR
  | FLAC__STREAM_DECODER_SEEK_STATUS_UNSUPPORTED
  deriving DecidableEq, Repr

/-- Result of the tell callback. -/
inductive FLAC__StreamDecoderTellStatus where
  | FLAC__STREAM_DECODER_TELL_STATUS_OK
  | FLAC__STREAM_DECODER_TELL_STATUS_ERROR
  | FLAC__STREAM_DECODER_TELL_STATUS_UNSUPPORTED
  deriving DecidableEq, Repr

/-- Result of the length callback. -/
inductive FLAC__StreamDecoderLengthStatus where
  | FLAC__STREAM_DECODER_LENGTH_STATUS_OK
  | FLAC__STREAM_DECODER_LENGTH_STATUS_ERROR
  | FLAC__STREAM_DECODER_LENGTH_STATUS_UNSUPPORTED
  deriving DecidableEq, Repr

/-- Result of the write callback. -/
inductive FLAC__StreamDecoderWriteStatus where
  | FLAC__STREAM_DECODER_WRITE_STATUS_CONTINUE
  | FLAC__STREAM_DECODER_WRITE_STATUS_ABORT
  deriving DecidableEq, Repr

/-- Tag of a metadata block. -/
inductive FLAC__MetadataType where
  | FLAC__METADATA_TYPE_STREAMINFO
  | FLAC__METADATA_TYPE_PADDING
  | FLAC__METADATA_TYPE_APPLICATION
  | FLAC__METADATA_TYPE_SEEKTABLE
  | FLAC__METADATA_TYPE_VORBIS_COMMENT
  | FLAC__METADATA_TYPE_CUESHEET
  | FLAC__METADATA_TYPE_PICTURE
  | FLAC__METADATA_TYPE_UNDEFINED
  deriving DecidableEq, Repr

open FLAC__StreamDecoderReadStatus FLAC__StreamDecoderSeekStatus FLAC__StreamDecoderTellStatus
open FLAC__StreamDecoderLengthStatus FLAC__StreamDecoderWriteStatus FLAC__MetadataType

/-- Header of a decoded frame; the four fields the write callback reads, all `unsigned`. -/
structure FLAC__FrameHeader where
  blocksize : Nat
  sample_rate : Nat
  channels : Nat
  bits_per_sample : Nat
  deriving DecidableEq, Repr

/-- Decoded frame as the write callback sees it: only its header is read. -/
structure FLAC__Frame where
  header : FLAC__FrameHeader
  deriving DecidableEq, Repr

/-- The constant `FLAC__MAX_CHANNELS` of libFLAC: the largest channel count of a frame. -/
def FLAC__MAX_CHANNELS : Nat := 8

/-- The constant `FLAC__MAX_BLOCK_SIZE` of libFLAC: the largest block size of a frame. -/
def FLAC__MAX_BLOCK_SIZE : Nat := 65535

/-- The frames the decoder delivers to the write callback: block size and channel count are
within the limits of the FLAC format (the spec gives 1..8 channels). -/
def deliverable (frame : FLAC__Frame) : Prop :=
  frame.header.blocksize ≤ FLAC__MAX_BLOCK_SIZE ∧ frame.header.channels ≤ FLAC__MAX_CHANNELS

/-- STREAMINFO payload of a metadata block. -/
structure FLAC__StreamMetadata_StreamInfo where
  sample_rate : Nat
  channels : Nat
  bits_per_sample : Nat
  total_samples : Nat
  deriving DecidableEq, Repr

/-- Payload of a metadata block; of the C union only the member `stream_info` is read. -/
structure FLAC__StreamMetadata_Data where
  stream_info : FLAC__StreamMetadata_StreamInfo
  deriving DecidableEq, Repr

/-- Metadata block handed to the metadata callback. -/
structure FLAC__StreamMetadata where
  type : FLAC__MetadataType
  data : FLAC__StreamMetadata_Data
  deriving DecidableEq, Repr

/-! ## The shared context -/

/-- Modelled from the spec: `struct stream_info` is declared in `flacng.h`, which is not among
the sources.  The fields are those the callbacks assign (StreamFormat of the spec); `samples`
holds the 64-bit total sample count. -/
structure stream_info where
  bits_per_sample : Nat
  samplerate : Nat
  channels : Nat
  samples : Nat
  deriving DecidableEq, Repr

/-- Modelled from the spec: `struct frame_info` is declared in `flacng.h`, which is not among
the sources.  The fields are those the write callback assigns (FrameFormat of the spec). -/
structure frame_info where
  bits_per_sample : Nat
  samplerate : Nat
  channels : Nat
  deriving DecidableEq, Repr

/-- Modelled from the spec: `callback_info` is declared in `flacng.h`, which is not among the
sources.  The fields are those the callbacks use (CallbackInfo of the spec).  `output_buffer`
is the memory the write cursor points into, indexed by sample word, and `write_pointer` is the
index of the cursor.  The spec describes `buffer_free` and `buffer_used` as counters with
`used + free == capacity` and gives them no width: they are integers here, so a decrement below
zero shows as a negative value.  `fd` is the file handle reference, `none` for a null pointer.
`bitrate` is an `int`. -/
structure callback_info (F : Type) where
  output_buffer : Nat → Int
  write_pointer : Nat
  buffer_free : Int
  buffer_used : Int
  fd : Option F
  stream : stream_info
  metadata_changed : Bool
  frame : frame_info
  bitrate : Int

/-! ## The virtual file layer -/

/-- Record of one invocation of a primitive of the virtual file layer. -/
inductive VfsCall (F : Type) where
  | fread (size nmemb : Int) (file : Option F)
  | fseek (file : Option F) (offset : Int) (whence : Int)
  | ftell (file : Option F)
  | feof (file : Option F)
  | fsize (file : Option F)
  deriving DecidableEq, Repr

/-- Behaviour of the external virtual file layer over a state `W`.  `fread` receives the
destination bytes and returns the `gint64` result, the destination afterwards and the new
state; the other primitives return their result and the new state. -/
structure Vfs (F W : Type) where
  fread : W → List Nat → Int → Int → Option F → Int × List Nat × W
  fseek : W → Option F → Int → Int → Int × W
  ftell : W → Option F → Int × W
  feof : W → Option F → Int × W
  fsize : W → Option F → Int × W

/-- State outside the context: the state of the virtual file layer and the trace of the
primitive invocations made so far, oldest first. -/
structure Env (F W : Type) where
  world : W
  trace : List (VfsCall F)

/-- The constant `SEEK_SET` of the C library. -/
def SEEK_SET : Int := 0

variable {F W : Type}

/-- Call of `vfs_fread(ptr, size, nmemb, file)`. -/
def vfs_fread (V : Vfs F W) (env : Env F W) (ptr : List Nat) (size nmemb : Int)
    (file : Option F) : Int × List Nat × Env F W :=
  let r := V.fread env.world ptr size nmemb file
  (r.1, r.2.1, { world := r.2.2, trace := env.trace ++ [VfsCall.fread size nmemb file] })

/-- Call of `vfs_fseek(file, offset, whence)`. -/
def vfs_fseek (V : Vfs F W) (env : Env F W) (file : Option F) (offset whence : Int) :
    Int × Env F W :=
  let r := V.fseek env.world file offset whence
  (r.1, { world := r.2, trace := env.trace ++ [VfsCall.fseek file offset whence] })

/-- Call of `vfs_ftell(file)`. -/
def vfs_ftell (V : Vfs F W) (env : Env F W) (file : Option F) : Int × Env F W :=
  let r := V.ftell env.world file
  (r.1, { world := r.2, trace := env.trace ++ [VfsCall.ftell file] })

/-- Call of `vfs_feof(file)`. -/
def vfs_feof (V : Vfs F W) (env : Env F W) (file : Option F) : Int × Env F W :=
  let r := V.feof env.world file
  (r.1, { world := r.2, trace := env.trace ++ [VfsCall.feof file] })

/-- Call of `vfs_fsize(file)`. -/
def vfs_fsize (V : Vfs F W) (env : Env F W) (file : Option F) : Int × Env F W :=
  let r := V.fsize env.world file
  (r.1, { world := r.2, trace := env.trace ++ [VfsCall.fsize file] })

/-! ## The I/O callbacks -/

/-- Outcome of `read_callback`: the returned status, the destination bytes and the value of
`*bytes` afterwards, and the context and outside state afterwards. -/
structure ReadResult (F W : Type) where
  status : FLAC__StreamDecoderReadStatus
  buffer : List Nat
  bytes : Int
  info : callback_info F
  env : Env F W

/-- The function `read_callback`; `bytes` is the value of `*bytes` on entry. -/
def read_callback (V : Vfs F W) (buffer : List Nat) (bytes : Int) (info : callback_info F)
    (env : Env F W) : ReadResult F W :=
  if info.fd.isNone then
    ⟨FLAC__STREAM_DECODER_READ_STATUS_ABORT, buffer, bytes, info, env⟩
  else if bytes = 0 then
    ⟨FLAC__STREAM_DECODER_READ_STATUS_END_OF_STREAM, buffer, bytes, info, env⟩
  else
    let r := vfs_fread V env buffer 1 bytes info.fd
    let read := toUInt64 r.1
    if read = toUInt64 (-1) then
      ⟨FLAC__STREAM_DECODER_READ_STATUS_ABORT, r.2.1, read, info, r.2.2⟩
    else if read = 0 then
      ⟨FLAC__STREAM_DECODER_READ_STATUS_END_OF_STREAM, r.2.1, read, info, r.2.2⟩
    else
      ⟨FLAC__STREAM_DECODER_READ_STATUS_CONTINUE, r.2.1, read, info, r.2.2⟩

/-- Outcome of `seek_callback`. -/
structure SeekResult (F W : Type) where
  status : FLAC__StreamDecoderSeekStatus
  info : callback_info F
  env : Env F W

/-- The function `seek_callback`. -/
def seek_callback (V : Vfs F W) (offset : Int) (info : callback_info F) (env : Env F W) :
    SeekResult F W :=
  let r := vfs_fseek V env info.fd offset SEEK_SET
  if r.1 ≠ 0 then
    ⟨FLAC__STREAM_DECODER_SEEK_STATUS_ERROR, info, r.2⟩
  else
    ⟨FLAC__STREAM_DECODER_SEEK_STATUS_OK, info, r.2⟩

/-- Outcome of `tell_callback`; `offset` is the value of `*offset` afterwards. -/
structure TellResult (F W : Type) where
  status : FLAC__StreamDecoderTellStatus
  offset : Int
  info : callback_info F
  env : Env F W

/-- The function `tell_callback`. -/
def tell_callback (V : Vfs F W) (info : callback_info F) (env : Env F W) : TellResult F W :=
  let r := vfs_ftell V env info.fd
  let offset := toUInt64 r.1
  if offset = toUInt64 (-1) then
    ⟨FLAC__STREAM_DECODER_TELL_STATUS_ERROR, offset, info, r.2⟩
  else
    ⟨FLAC__STREAM_DECODER_TELL_STATUS_OK, offset, info, r.2⟩

/-- Outcome of `eof_callback`; `value` is the returned `FLAC__bool`. -/
structure EofResult (F W : Type) where
  value : Int
  info : callback_info F
  env : Env F W

/-- The function `eof_callback`. -/
def eof_callback (V : Vfs F W) (info : callback_info F) (env : Env F W) : EofResult F W :=
  let r := vfs_feof V env info.fd
  ⟨r.1, info, r.2⟩

/-- Outcome of `length_callback`; `length` is the value of `*length` afterwards. -/
structure LengthResult (F W : Type) where
  status : FLAC__StreamDecoderLengthStatus
  length : Int
  info : callback_info F
  env : Env F W

/-- The function `length_callback`. -/
def length_callback (V : Vfs F W) (info : callback_info F) (env : Env F W) :
    LengthResult F W :=
  let r := vfs_fsize V env info.fd
  let length := toUInt64 r.1
  if length = toUInt64 (-1) then
    ⟨FLAC__STREAM_DECODER_LENGTH_STATUS_UNSUPPORTED, 0, info, r.2⟩
  else
    ⟨FLAC__STREAM_DECODER_LENGTH_STATUS_OK, length, info, r.2⟩

/-! ## The write callback -/

/-- Body of the inner loop of `write_callback`: the three statements
`*(info->write_pointer++) = buffer[channel][sample]`, `info->buffer_free -= 1` and
`info->buffer_used += 1`. -/
def write_sample (buffer : Int → Nat → Int) (channel : Int) (sample : Nat)
    (info : callback_info F) : callback_info F :=
  { info with
    output_buffer := fun a =>
      if a = info.write_pointer then buffer channel sample else info.output_buffer a
    write_pointer := info.write_pointer + 1
    buffer_free := info.buffer_free - 1
    buffer_used := info.buffer_used + 1 }

/-- Inner loop of `write_callback`, entered at the test `channel < frame->header.channels`.
The counter `channel` is a `short`: the test compares it after conversion to `unsigned`, and
the increment converts the sum back to `short`.  One unit of fuel is spent per test. -/
def channel_loop (frame : FLAC__Frame) (buffer : Int → Nat → Int) (sample : Nat) :
    Nat → Int → callback_info F → callback_info F
  | 0, _, info => info
  | fuel + 1, channel, info =>
    if toUnsigned channel < (frame.header.channels : Int) then
      channel_loop frame buffer sample fuel (toShort (channel + 1))
        (write_sample buffer channel sample info)
    else
      info

/-- Fuel of the inner loop: a `short` counter that starts at 0 takes at most 65535 steps
before the test against an `unsigned` bound fails, so 65536 tests are enough. -/
def channel_fuel : Nat := 65536

/-- Outer loop of `write_callback`, entered at the test `sample < frame->header.blocksize`.
The counter `sample` is a `long` and never leaves its range.  One unit of fuel is spent per
test. -/
def sample_loop (frame : FLAC__Frame) (buffer : Int → Nat → Int) :
    Nat → Nat → callback_info F → callback_info F
  | 0, _, info => info
  | fuel + 1, sample, info =>
    if sample < frame.header.blocksize then
      sample_loop frame buffer fuel (sample + 1)
        (channel_loop frame buffer sample channel_fuel 0 info)
    else
      info

/-- The function `write_callback`.  `buffer channel sample` is `buffer[channel][sample]`.
The product in the capacity test is a product of two `unsigned` values, hence reduced
modulo 2^32. -/
def write_callback (frame : FLAC__Frame) (buffer : Int → Nat → Int) (info : callback_info F) :
    FLAC__StreamDecoderWriteStatus × callback_info F :=
  if info.buffer_free <
      (((frame.header.blocksize * frame.header.channels) % 4294967296 : Nat) : Int) then
    (FLAC__STREAM_DECODER_WRITE_STATUS_ABORT, info)
  else if frame.header.bits_per_sample ≠ 8 ∧ frame.header.bits_per_sample ≠ 16 ∧
      frame.header.bits_per_sample ≠ 24 ∧ frame.header.bits_per_sample ≠ 32 then
    (FLAC__STREAM_DECODER_WRITE_STATUS_ABORT, info)
  else
    let info1 : callback_info F :=
      { info with
        frame :=
          { channels := frame.header.channels
            samplerate := frame.header.sample_rate
            bits_per_sample := frame.header.bits_per_sample } }
    (FLAC__STREAM_DECODER_WRITE_STATUS_CONTINUE,
      sample_loop frame buffer (frame.header.blocksize + 1) 0 info1)

/-! ## The error and metadata callbacks -/

/-- The function `error_callback`: it only logs the status. -/
def error_callback (_status : Int) (info : callback_info F) : callback_info F := info

/-- The bitrate expression `8 * size * (int64_t) samplerate / samples` of `metadata_callback`
and its assignment to the `int` field: the products are `int64_t` products, the division is
a division of `uint64` values (the signed dividend is converted), and the quotient is
converted to `int`. -/
def bitrate_of (size : Int) (samplerate samples : Nat) : Int :=
  toInt (toUInt64 (toInt64 (toInt64 (8 * size) * (samplerate : Int))) / (samples : Int))

/-- The function `metadata_callback`. -/
def metadata_callback (V : Vfs F W) (metadata : FLAC__StreamMetadata) (info : callback_info F)
    (env : Env F W) : callback_info F × Env F W :=
  if metadata.type = FLAC__METADATA_TYPE_STREAMINFO then
    let stream : stream_info :=
      { samples := metadata.data.stream_info.total_samples
        bits_per_sample := metadata.data.stream_info.bits_per_sample
        channels := metadata.data.stream_info.channels
        samplerate := metadata.data.stream_info.sample_rate }
    let r := vfs_fsize V env info.fd
    let size := r.1
    let bitrate : Int :=
      if size = -1 ∨ stream.samples = 0 then 0
      else bitrate_of size stream.samplerate stream.samples
    ({ info with stream := stream, bitrate := bitrate, metadata_changed := true }, r.2)
  else
    (info, env)

/-! ## Closed forms used in the proofs -/

/-- The context after `n` words `g 0`, ..., `g (n - 1)` have been stored at the write cursor,
one iteration of the inner loop each. -/
def stored (info : callback_info F) (n : Nat) (g : Nat → Int) : callback_info F :=
  { info with
    output_buffer := fun a =>
      if info.write_pointer ≤ a ∧ a < info.write_pointer + n then g (a - info.write_pointer)
      else info.output_buffer a
    write_pointer := info.write_pointer + n
    buffer_free := info.buffer_free - n
    buffer_used := info.buffer_used + n }

/-- Number of iterations of the inner loop for a channel count below 2^32: the count itself
up to 32768; beyond it the `short` counter wraps to -32768, which as an `unsigned` is
4294934528, so the loop ends after 32768 iterations unless the count exceeds that value. -/
def channel_trips (channels : Nat) : Nat :=
  if channels ≤ 32768 then channels
  else if channels ≤ 4294934528 then 32768
  else channels - 4294901760

/-! ## Concrete inputs used by the witnesses and counterexamples -/

/-- A context with an untouched output buffer, the write cursor at index 0, nothing used and
`free` words free, and no file handle bound. -/
def idle_info (free : Int) : callback_info Unit :=
  { output_buffer := fun _ => 0
    write_pointer := 0
    buffer_free := free
    buffer_used := 0
    fd := none
    stream := ⟨0, 0, 0, 0⟩
    metadata_changed := false
    frame := ⟨0, 0, 0⟩
    bitrate := 0 }

/-- Planar samples of a stereo block of three samples: channel 0 holds 11, 12, 13 and
channel 1 holds 21, 22, 23. -/
def stereo_samples : Int → Nat → Int := fun channel sample =>
  if channel = 0 then [11, 12, 13].getD sample 0
  else if channel = 1 then [21, 22, 23].getD sample 0
  else 0

/-- Planar samples in which every sample of channel `c` is `c + 1`. -/
def channel_ramp : Int → Nat → Int := fun channel _ => channel + 1

/-- A 16-bit stereo frame of three samples per channel. -/
def stereo_frame : FLAC__Frame := ⟨⟨3, 44100, 2, 16⟩⟩

/-- A 16-bit frame of one sample in 32769 channels, beyond the limits of the format and one
channel more than the `short` channel counter of the write callback can count. -/
def wide_frame : FLAC__Frame := ⟨⟨1, 44100, 32769, 16⟩⟩

/-- A 16-bit stereo frame of 2^31 samples per channel, beyond the limits of the format: its
word count is 2^32, which the 32-bit product of the capacity test reduces to 0. -/
def long_frame : FLAC__Frame := ⟨⟨2147483648, 44100, 2, 16⟩⟩

/-- A stereo frame of three samples with the unsupported depth of 12 bits per sample. -/
def odd_depth_frame : FLAC__Frame := ⟨⟨3, 44100, 2, 12⟩⟩

/-- A virtual file layer with fixed answers: every read returns `read_result` and leaves the
destination as it is, every seek succeeds, the position is `position`, end of file is not
reached and the size is `size`. -/
def fixed_vfs (read_result position size : Int) : Vfs Unit Unit :=
  { fread := fun w ptr _ _ _ => (read_result, ptr, w)
    fseek := fun w _ _ _ => (0, w)
    ftell := fun w _ => (position, w)
    feof := fun w _ => (0, w)
    fsize := fun w _ => (size, w) }

/-- The outside state before any primitive has been invoked. -/
def fresh_env : Env Unit Unit := { world := (), trace := [] }

/-- The idle context with a file handle bound. -/
def bound_info : callback_info Unit := { idle_info 0 with fd := some () }

/-- A STREAMINFO block: 16-bit stereo at `sample_rate` Hz with `total_samples` samples. -/
def streaminfo_block (sample_rate total_samples : Nat) : FLAC__StreamMetadata :=
  { type := FLAC__METADATA_TYPE_STREAMINFO
    data := { stream_info :=
      { sample_rate := sample_rate
        channels := 2
        bits_per_sample := 16
        total_samples := total_samples } } }

/-- A metadata block of type PADDING; its payload is not read. -/
def padding_block : FLAC__StreamMetadata :=
  { type := FLAC__METADATA_TYPE_PADDING
    data := { stream_info :=
      { sample_rate := 0
        channels := 0
        bits_per_sample := 0
        total_samples := 0 } } }

/-- A virtual file layer on which every primitive reports failure: reads, seeks, the position
and the size all return -1, and end of file is not reached. -/
def refusing_vfs : Vfs Unit Unit :=
  { fread := fun w ptr _ _ _ => (-1, ptr, w)
    fseek := fun w _ _ _ => (-1, w)
    ftell := fun w _ => (-1, w)
    feof := fun w _ => (0, w)
    fsize := fun w _ => (-1, w) }

/-- Planar samples of a mono block of two samples: channel 0 holds 31, 32. -/
def mono_samples : Int → Nat → Int := fun channel sample =>
  if channel = 0 then [31, 32].getD sample 0 else 0

/-- A 24-bit mono frame of two samples at 48000 Hz. -/
def mono_frame : FLAC__Frame := ⟨⟨2, 48000, 1, 24⟩⟩

/-! ## The decoder driving the callbacks -/

/-- The state the callbacks share: the context and the state outside it. -/
structure State (F W : Type) where
  info : callback_info F
  env : Env F W

/-- One invocation of a callback of this layer by the decoder, with its arguments. -/
inductive Call where
  | read (buffer : List Nat) (bytes : Int)
  | seek (offset : Int)
  | tell
  | eof
  | length
  | write (frame : FLAC__Frame) (buffer : Int → Nat → Int)
  | error (status : Int)
  | metadata (block : FLAC__StreamMetadata)

/-- Effect of one callback invocation on the shared state; the values handed back to the
decoder are dropped. -/
def invoke (V : Vfs F W) : Call → State F W → State F W
  | Call.read buffer bytes, st =>
    ⟨(read_callback V buffer bytes st.info st.env).info,
      (read_callback V buffer bytes st.info st.env).env⟩
  | Call.seek offset, st =>
    ⟨(seek_callback V offset st.info st.env).info, (seek_callback V offset st.info st.env).env⟩
  | Call.tell, st => ⟨(tell_callback V st.info st.env).info, (tell_callback V st.info st.env).env⟩
  | Call.eof, st => ⟨(eof_callback V st.info st.env).info, (eof_callback V st.info st.env).env⟩
  | Call.length, st =>
    ⟨(length_callback V st.info st.env).info, (length_callback V st.info st.env).env⟩
  | Call.write frame buffer, st => ⟨(write_callback frame buffer st.info).2, st.env⟩
  | Call.error status, st => ⟨error_callback status st.info, st.env⟩
  | Call.metadata block, st =>
    ⟨(metadata_callback V block st.info st.env).1, (metadata_callback V block st.info st.env).2⟩

/-- Effect of a sequence of callback invocations, first to last. -/
def run (V : Vfs F W) : List Call → State F W → State F W
  | [], st => st
  | call :: calls, st => run V calls (invoke V call st)

/-- Whether an invocation is the metadata callback on a STREAMINFO block. -/
def processes_streaminfo : Call → Bool
  | Call.metadata block => decide (block.type = FLAC__METADATA_TYPE_STREAMINFO)
  | _ => false

/-! ## Closed form of the write callback -/

/-- Storing no word changes nothing. -/
theorem stored_zero (info : callback_info F) (g : Nat → Int) : stored info 0 g = info := by
  cases info
  simp only [stored, callback_info.mk.injEq, and_true, true_and]
  refine ⟨?_, ?_, ?_, ?_⟩
  · funext a
    split_ifs <;> first | rfl | omega
  · omega
  · simp
  · simp

/-- Only the first `n` values of the word sequence matter. -/
theorem stored_congr (info : callback_info F) (n : Nat) (g h : Nat → Int)
    (hgh : ∀ k, k < n → g k = h k) : stored info n g = stored info n h := by
  cases info
  simp only [stored, callback_info.mk.injEq, and_true, true_and]
  funext a
  split_ifs with ha
  · exact hgh _ (by omega)
  · rfl

/-- Storing `n` words and then `m` words is storing `n + m` words. -/
theorem stored_stored (info : callback_info F) (n m : Nat) (g h : Nat → Int) :
    stored (stored info n g) m h
      = stored info (n + m) (fun k => if k < n then g k else h (k - n)) := by
  cases info
  simp only [stored, callback_info.mk.injEq, and_true, true_and]
  refine ⟨?_, ?_, ?_, ?_⟩
  · funext a
    split_ifs <;> first | rfl | omega | (congr 1; omega)
  · omega
  · push_cast; ring
  · push_cast; ring

/-- One iteration of the inner loop stores one word. -/
theorem write_sample_eq_stored (buffer : Int → Nat → Int) (channel : Int) (sample : Nat)
    (info : callback_info F) :
    write_sample buffer channel sample info = stored info 1 (fun _ => buffer channel sample) := by
  cases info
  simp only [write_sample, stored, callback_info.mk.injEq, and_true, true_and]
  refine ⟨?_, ?_, ?_⟩
  · funext a
    split_ifs <;> first | rfl | omega
  · simp
  · simp

/-- Incrementing a `short` counter is incrementing modulo 2^16. -/
theorem toShort_succ (x : Int) : toShort (toShort x + 1) = toShort (x + 1) := by
  unfold toShort
  omega

/-- Values below 32768 are unchanged by the conversion to `short`. -/
theorem toShort_of_lt (c : Nat) (hc : c < 32768) : toShort (c : Int) = (c : Int) := by
  unfold toShort
  omega

/-- The test of the inner loop succeeds before `channel_trips` iterations are done. -/
theorem channel_test_of_lt_trips (channels d : Nat) (hch : channels < 4294967296)
    (hd : d < channel_trips channels) :
    toUnsigned (toShort (d : Int)) < (channels : Int) := by
  unfold channel_trips at hd
  unfold toUnsigned toShort
  split_ifs at hd <;> omega

/-- The test of the inner loop fails once `channel_trips` iterations are done. -/
theorem channel_test_at_trips (channels : Nat) (hch : channels < 4294967296) :
    ¬ toUnsigned (toShort ((channel_trips channels : Nat) : Int)) < (channels : Int) := by
  unfold channel_trips
  unfold toUnsigned toShort
  split_ifs <;> omega

/-- The inner loop needs fewer tests than `channel_fuel` provides. -/
theorem channel_trips_lt_fuel (channels : Nat) (hch : channels < 4294967296) :
    channel_trips channels < channel_fuel := by
  unfold channel_trips channel_fuel
  split_ifs <;> omega

/-- As long as the test succeeds, `k` iterations of the inner loop store `k` words, the
values of the counter being the successive conversions to `short`. -/
theorem channel_loop_steps (frame : FLAC__Frame) (buffer : Int → Nat → Int) (sample : Nat) :
    ∀ (k j fuel : Nat) (info : callback_info F),
      (∀ d, d < k → toUnsigned (toShort ((j + d : Nat) : Int)) < (frame.header.channels : Int)) →
      channel_loop frame buffer sample (fuel + k) (toShort ((j : Nat) : Int)) info
        = channel_loop frame buffer sample fuel (toShort ((j + k : Nat) : Int))
            (stored info k (fun d => buffer (toShort ((j + d : Nat) : Int)) sample)) := by
  intro k
  induction k with
  | zero =>
    intro j fuel info _
    simp [stored_zero]
  | succ k ih =>
    intro j fuel info htest
    have h0 : toUnsigned (toShort ((j : Nat) : Int)) < (frame.header.channels : Int) := by
      simpa using htest 0 (Nat.succ_pos k)
    have hstep : fuel + (k + 1) = (fuel + k) + 1 := by omega
    rw [hstep, channel_loop, if_pos h0, toShort_succ]
    have hj : ((j : Nat) : Int) + 1 = ((j + 1 : Nat) : Int) := by push_cast; ring
    rw [hj, ih (j + 1) fuel _ (fun d hd => by
      have := htest (d + 1) (by omega)
      rwa [show j + 1 + d = j + (d + 1) by omega])]
    rw [write_sample_eq_stored, stored_stored]
    have hk : j + 1 + k = j + (k + 1) := by omega
    rw [hk, Nat.add_comm 1 k]
    congr 1
    apply stored_congr
    intro d hd
    by_cases hd0 : d < 1
    · have : d = 0 := by omega
      subst this
      simp
    · rw [if_neg hd0]
      have : j + 1 + (d - 1) = j + d := by omega
      rw [this]

/-- The inner loop, started at channel 0 with any fuel above `channel_trips`, ends by its
test and has stored one word per iteration. -/
theorem channel_loop_eq (frame : FLAC__Frame) (buffer : Int → Nat → Int) (sample : Nat)
    (info : callback_info F) (hch : frame.header.channels < 4294967296) (extra : Nat) :
    channel_loop frame buffer sample (channel_trips frame.header.channels + 1 + extra) 0 info
      = stored info (channel_trips frame.header.channels)
          (fun d => buffer (toShort ((d : Nat) : Int)) sample) := by
  have h0 : (0 : Int) = toShort ((0 : Nat) : Int) := by unfold toShort; simp
  have hf : channel_trips frame.header.channels + 1 + extra
      = (extra + 1) + channel_trips frame.header.channels := by omega
  rw [hf]
  conv_lhs => rw [h0]
  rw [channel_loop_steps frame buffer sample (channel_trips frame.header.channels) 0 (extra + 1)
    info (fun d hd => by
      rw [Nat.zero_add]
      exact channel_test_of_lt_trips _ _ hch hd)]
  rw [channel_loop, Nat.zero_add, if_neg (channel_test_at_trips _ hch)]
  apply stored_congr
  intro d _
  rw [Nat.zero_add]

/-- The inner loop as `write_callback` runs it. -/
theorem channel_loop_fuel (frame : FLAC__Frame) (buffer : Int → Nat → Int) (sample : Nat)
    (info : callback_info F) (hch : frame.header.channels < 4294967296) :
    channel_loop frame buffer sample channel_fuel 0 info
      = stored info (channel_trips frame.header.channels)
          (fun d => buffer (toShort ((d : Nat) : Int)) sample) := by
  have hlt := channel_trips_lt_fuel frame.header.channels hch
  have hf : channel_fuel = channel_trips frame.header.channels + 1
      + (channel_fuel - channel_trips frame.header.channels - 1) := by omega
  rw [hf]
  exact channel_loop_eq frame buffer sample info hch _

/-- Row and column of a word index after the first row of `T` words is taken away. -/
theorem interleave_index (T k : Nat) (hT : 0 < T) (hk : T ≤ k) :
    (k - T) % T = k % T ∧ 1 + (k - T) / T = k / T := by
  obtain ⟨m, rfl⟩ : ∃ m, k = m + T := ⟨k - T, by omega⟩
  refine ⟨by simp, ?_⟩
  rw [Nat.add_sub_cancel, Nat.add_div_right _ hT]
  omega

/-- The outer loop, started at `sample` with `n` samples to go and any fuel above `n`, ends
by its test; word number `k` of the words it stores comes from sample `sample + k / trips`
and from the channel counter value of iteration `k % trips` of the inner loop. -/
theorem sample_loop_eq (frame : FLAC__Frame) (buffer : Int → Nat → Int)
    (hch : frame.header.channels < 4294967296) :
    ∀ (n sample extra : Nat) (info : callback_info F),
      sample + n = frame.header.blocksize →
      sample_loop frame buffer (n + 1 + extra) sample info
        = stored info (n * channel_trips frame.header.channels)
            (fun k => buffer (toShort ((k % channel_trips frame.header.channels : Nat) : Int))
              (sample + k / channel_trips frame.header.channels)) := by
  intro n
  induction n with
  | zero =>
    intro sample extra info hs
    have hf : 0 + 1 + extra = extra + 1 := by omega
    rw [hf, sample_loop, if_neg (by omega), Nat.zero_mul, stored_zero]
  | succ n ih =>
    intro sample extra info hs
    have hf : n + 1 + 1 + extra = (n + 1 + extra) + 1 := by omega
    rw [hf, sample_loop, if_pos (by omega), channel_loop_fuel frame buffer sample info hch,
      ih (sample + 1) extra _ (by omega), stored_stored]
    have hT : channel_trips frame.header.channels + n * channel_trips frame.header.channels
        = (n + 1) * channel_trips frame.header.channels := by ring
    rw [hT]
    apply stored_congr
    intro k hk
    by_cases hlt : k < channel_trips frame.header.channels
    · rw [if_pos hlt, Nat.mod_eq_of_lt hlt, Nat.div_eq_of_lt hlt, Nat.add_zero]
    · rw [if_neg hlt]
      have hpos : 0 < channel_trips frame.header.channels := by
        rcases Nat.eq_zero_or_pos (channel_trips frame.header.channels) with h0 | h0
        · rw [h0, Nat.mul_zero] at hk
          omega
        · exact h0
      obtain ⟨h1, h2⟩ := interleave_index _ k hpos (by omega)
      rw [h1, Nat.add_assoc, h2]

/-- Closed form of an accepting call of `write_callback`. -/
theorem write_callback_accept (frame : FLAC__Frame) (buffer : Int → Nat → Int)
    (info : callback_info F) (hch : frame.header.channels < 4294967296)
    (hfree : (((frame.header.blocksize * frame.header.channels) % 4294967296 : Nat) : Int)
      ≤ info.buffer_free)
    (hbits : frame.header.bits_per_sample = 8 ∨ frame.header.bits_per_sample = 16 ∨
      frame.header.bits_per_sample = 24 ∨ frame.header.bits_per_sample = 32) :
    write_callback frame buffer info
      = (FLAC__STREAM_DECODER_WRITE_STATUS_CONTINUE,
          stored
            { info with
              frame :=
                { channels := frame.header.channels
                  samplerate := frame.header.sample_rate
                  bits_per_sample := frame.header.bits_per_sample } }
            (frame.header.blocksize * channel_trips frame.header.channels)
            (fun k => buffer (toShort ((k % channel_trips frame.header.channels : Nat) : Int))
              (k / channel_trips frame.header.channels))) := by
  unfold write_callback
  rw [if_neg (not_lt.mpr hfree), if_neg (by omega)]
  have h := sample_loop_eq frame buffer hch frame.header.blocksize 0 0
    ({ info with
        frame :=
          { channels := frame.header.channels
            samplerate := frame.header.sample_rate
            bits_per_sample := frame.header.bits_per_sample } } : callback_info F)
    (Nat.zero_add _)
  simp only [Nat.zero_add, Nat.add_zero] at h
  simp only [h]

/-- The capacity test of `write_callback` rejects the frame and changes nothing. -/
theorem write_callback_reject_capacity (frame : FLAC__Frame) (buffer : Int → Nat → Int)
    (info : callback_info F)
    (hfree : info.buffer_free
      < (((frame.header.blocksize * frame.header.channels) % 4294967296 : Nat) : Int)) :
    write_callback frame buffer info = (FLAC__STREAM_DECODER_WRITE_STATUS_ABORT, info) := by
  unfold write_callback
  rw [if_pos hfree]

/-- The depth test of `write_callback` rejects the frame and changes nothing. -/
theorem write_callback_reject_bits (frame : FLAC__Frame) (buffer : Int → Nat → Int)
    (info : callback_info F)
    (hbits : frame.header.bits_per_sample ≠ 8 ∧ frame.header.bits_per_sample ≠ 16 ∧
      frame.header.bits_per_sample ≠ 24 ∧ frame.header.bits_per_sample ≠ 32) :
    write_callback frame buffer info = (FLAC__STREAM_DECODER_WRITE_STATUS_ABORT, info) := by
  unfold write_callback
  split_ifs
  · rfl
  · rfl

/-! ## The write callback: interleaving, rejection and accounting -/

/-- Up to 32768 channels the inner loop visits every channel. -/
theorem channel_trips_of_le (channels : Nat) (h : channels ≤ 32768) :
    channel_trips channels = channels := by
  unfold channel_trips
  rw [if_pos h]

/-- The inner loop never runs more iterations than there are channels. -/
theorem channel_trips_le (channels : Nat) (h : channels < 4294967296) :
    channel_trips channels ≤ channels := by
  unfold channel_trips
  split_ifs <;> omega

/-- A deliverable frame has a channel count the `short` counter covers and a word count
below 2^32, so the 32-bit product of the capacity test is the true product. -/
theorem deliverable_bounds (frame : FLAC__Frame) (h : deliverable frame) :
    frame.header.channels ≤ 32768 ∧
    frame.header.blocksize * frame.header.channels < 4294967296 ∧
    (frame.header.blocksize * frame.header.channels) % 4294967296
      = frame.header.blocksize * frame.header.channels := by
  obtain ⟨hb, hc⟩ := h
  unfold FLAC__MAX_BLOCK_SIZE at hb
  unfold FLAC__MAX_CHANNELS at hc
  have hprod : frame.header.blocksize * frame.header.channels ≤ 65535 * 8 :=
    Nat.mul_le_mul hb hc
  exact ⟨by omega, by omega, Nat.mod_eq_of_lt (by omega)⟩

/-- Word number `k` of the stored words is found `k` places after the entry cursor. -/
theorem stored_read_inside (info : callback_info F) (n : Nat) (g : Nat → Int) (k : Nat)
    (hk : k < n) : (stored info n g).output_buffer (info.write_pointer + k) = g k := by
  simp only [stored]
  rw [if_pos ⟨by omega, by omega⟩, Nat.add_sub_cancel_left]

/-- Words below the entry cursor and words from entry cursor + `n` on are not touched. -/
theorem stored_read_outside (info : callback_info F) (n : Nat) (g : Nat → Int) (a : Nat)
    (ha : a < info.write_pointer ∨ info.write_pointer + n ≤ a) :
    (stored info n g).output_buffer a = info.output_buffer a := by
  simp only [stored]
  rw [if_neg (by omega)]

/-- Sample index and channel of the word at place `i * channels + c` of a frame. -/
theorem interleave_place (blocksize channels i c : Nat) (hi : i < blocksize)
    (hc : c < channels) :
    i * channels + c < blocksize * channels ∧
    (i * channels + c) % channels = c ∧ (i * channels + c) / channels = i := by
  refine ⟨?_, ?_, ?_⟩
  · calc i * channels + c < i * channels + channels := by omega
      _ = (i + 1) * channels := by ring
      _ ≤ blocksize * channels := Nat.mul_le_mul_right _ (by omega)
  · rw [Nat.mul_comm, Nat.mul_add_mod, Nat.mod_eq_of_lt hc]
  · rw [Nat.mul_comm, Nat.mul_add_div (by omega), Nat.div_eq_of_lt hc, Nat.add_zero]

/-- Closed form of an accepting call for a frame of at most 32768 channels that fits: the
words stored are the interleaving of the frame. -/
theorem write_callback_accept_fit (frame : FLAC__Frame) (buffer : Int → Nat → Int)
    (info : callback_info F)
    (hbits : frame.header.bits_per_sample = 8 ∨ frame.header.bits_per_sample = 16 ∨
      frame.header.bits_per_sample = 24 ∨ frame.header.bits_per_sample = 32)
    (hchan : frame.header.channels ≤ 32768)
    (hfit : ((frame.header.blocksize * frame.header.channels : Nat) : Int) ≤ info.buffer_free) :
    write_callback frame buffer info
      = (FLAC__STREAM_DECODER_WRITE_STATUS_CONTINUE,
          stored
            { info with
              frame :=
                { channels := frame.header.channels
                  samplerate := frame.header.sample_rate
                  bits_per_sample := frame.header.bits_per_sample } }
            (frame.header.blocksize * frame.header.channels)
            (fun k => buffer (((k % frame.header.channels : Nat) : Int))
              (k / frame.header.channels))) := by
  have hch : frame.header.channels < 4294967296 := by omega
  have hwrap : (((frame.header.blocksize * frame.header.channels) % 4294967296 : Nat) : Int)
      ≤ info.buffer_free := by
    have := Nat.mod_le (frame.header.blocksize * frame.header.channels) 4294967296
    omega
  rw [write_callback_accept frame buffer info hch hwrap hbits, channel_trips_of_le _ hchan]
  refine congrArg (Prod.mk FLAC__STREAM_DECODER_WRITE_STATUS_CONTINUE) ?_
  apply stored_congr
  intro k hk
  have hpos : 0 < frame.header.channels := by
    rcases Nat.eq_zero_or_pos frame.header.channels with h0 | h0
    · rw [h0, Nat.mul_zero] at hk
      omega
    · exact h0
  have hlt : k % frame.header.channels < frame.header.channels := Nat.mod_lt _ hpos
  rw [toShort_of_lt _ (by omega)]

/-- Interleaving for every frame of at most 32768 channels, the channel counts the `short`
counter covers: with supported depth and blocksize*channels <= buffer_free the call returns
CONTINUE, the word at p + i*channels + c is buffer[c][i], and the cursor and the two counters
move by blocksize*channels. -/
theorem write_callback_words (frame : FLAC__Frame) (buffer : Int → Nat → Int)
    (info : callback_info F)
    (hbits : frame.header.bits_per_sample = 8 ∨ frame.header.bits_per_sample = 16 ∨
      frame.header.bits_per_sample = 24 ∨ frame.header.bits_per_sample = 32)
    (hchan : frame.header.channels ≤ 32768)
    (hfit : ((frame.header.blocksize * frame.header.channels : Nat) : Int) ≤ info.buffer_free) :
    (write_callback frame buffer info).1 = FLAC__STREAM_DECODER_WRITE_STATUS_CONTINUE ∧
    (∀ i c : Nat, i < frame.header.blocksize → c < frame.header.channels →
      (write_callback frame buffer info).2.output_buffer
          (info.write_pointer + i * frame.header.channels + c) = buffer (c : Int) i) ∧
    (write_callback frame buffer info).2.write_pointer
      = info.write_pointer + frame.header.blocksize * frame.header.channels ∧
    (write_callback frame buffer info).2.buffer_used
      = info.buffer_used + ((frame.header.blocksize * frame.header.channels : Nat) : Int) ∧
    (write_callback frame buffer info).2.buffer_free
      = info.buffer_free - ((frame.header.blocksize * frame.header.channels : Nat) : Int) := by
  have hch : frame.header.channels < 4294967296 := by omega
  have hwrap : (((frame.header.blocksize * frame.header.channels) % 4294967296 : Nat) : Int)
      ≤ info.buffer_free := by
    have := Nat.mod_le (frame.header.blocksize * frame.header.channels) 4294967296
    omega
  rw [write_callback_accept frame buffer info hch hwrap hbits, channel_trips_of_le _ hchan]
  refine ⟨rfl, ?_, rfl, rfl, rfl⟩
  intro i c hi hc
  have hlt : i * frame.header.channels + c
      < frame.header.blocksize * frame.header.channels := by
    calc i * frame.header.channels + c
        < i * frame.header.channels + frame.header.channels := by omega
      _ = (i + 1) * frame.header.channels := by ring
      _ ≤ frame.header.blocksize * frame.header.channels :=
          Nat.mul_le_mul_right _ (by omega)
  have hmod : (i * frame.header.channels + c) % frame.header.channels = c := by
    rw [Nat.mul_comm, Nat.mul_add_mod, Nat.mod_eq_of_lt hc]
  have hdiv : (i * frame.header.channels + c) / frame.header.channels = i := by
    rw [Nat.mul_comm, Nat.mul_add_div (by omega), Nat.div_eq_of_lt hc, Nat.add_zero]
  have hidx : info.write_pointer + i * frame.header.channels + c - info.write_pointer
      = i * frame.header.channels + c := by omega
  simp only [stored]
  rw [if_pos ⟨by omega, by omega⟩, hidx, hmod, hdiv, toShort_of_lt c (by omega)]

/-- C1: for every frame the decoder delivers with bits_per_sample in {8,16,24,32} and
blocksize*channels <= buffer_free, write_callback returns CONTINUE; with p the write cursor
at entry, the output word at p + i*channels + c equals buffer[c][i] for every sample index
i < blocksize and channel c < channels; the cursor advances by exactly blocksize*channels,
buffer_used increases by exactly blocksize*channels and buffer_free decreases by exactly
blocksize*channels. -/
theorem write_callback_interleaves (frame : FLAC__Frame) (buffer : Int → Nat → Int)
    (info : callback_info F) (hdeliv : deliverable frame)
    (hbits : frame.header.bits_per_sample = 8 ∨ frame.header.bits_per_sample = 16 ∨
      frame.header.bits_per_sample = 24 ∨ frame.header.bits_per_sample = 32)
    (hfit : ((frame.header.blocksize * frame.header.channels : Nat) : Int) ≤ info.buffer_free) :
    (write_callback frame buffer info).1 = FLAC__STREAM_DECODER_WRITE_STATUS_CONTINUE ∧
    (∀ i c : Nat, i < frame.header.blocksize → c < frame.header.channels →
      (write_callback frame buffer info).2.output_buffer
          (info.write_pointer + i * frame.header.channels + c) = buffer (c : Int) i) ∧
    (write_callback frame buffer info).2.write_pointer
      = info.write_pointer + frame.header.blocksize * frame.header.channels ∧
    (write_callback frame buffer info).2.buffer_used
      = info.buffer_used + ((frame.header.blocksize * frame.header.channels : Nat) : Int) ∧
    (write_callback frame buffer info).2.buffer_free
      = info.buffer_free - ((frame.header.blocksize * frame.header.channels : Nat) : Int) :=
  write_callback_words frame buffer info hbits (deliverable_bounds frame hdeliv).1 hfit

/-- Witness of C1: the stereo frame of three samples with channel 0 = [11, 12, 13] and
channel 1 = [21, 22, 23], written into an empty buffer with six free words, leaves the words
[11, 21, 12, 22, 13, 23] at the cursor, six words used and none free. -/
theorem write_callback_interleaves_witness :
    deliverable stereo_frame ∧
    (stereo_frame.header.bits_per_sample = 8 ∨ stereo_frame.header.bits_per_sample = 16 ∨
      stereo_frame.header.bits_per_sample = 24 ∨ stereo_frame.header.bits_per_sample = 32) ∧
    ((stereo_frame.header.blocksize * stereo_frame.header.channels : Nat) : Int)
      ≤ (idle_info 6).buffer_free ∧
    ((write_callback stereo_frame stereo_samples (idle_info 6)).1
      = FLAC__STREAM_DECODER_WRITE_STATUS_CONTINUE ∧
    (∀ i c : Nat, i < stereo_frame.header.blocksize → c < stereo_frame.header.channels →
      (write_callback stereo_frame stereo_samples (idle_info 6)).2.output_buffer
          ((idle_info 6).write_pointer + i * stereo_frame.header.channels + c)
        = stereo_samples (c : Int) i) ∧
    (write_callback stereo_frame stereo_samples (idle_info 6)).2.write_pointer
      = (idle_info 6).write_pointer
        + stereo_frame.header.blocksize * stereo_frame.header.channels ∧
    (write_callback stereo_frame stereo_samples (idle_info 6)).2.buffer_used
      = (idle_info 6).buffer_used
        + ((stereo_frame.header.blocksize * stereo_frame.header.channels : Nat) : Int) ∧
    (write_callback stereo_frame stereo_samples (idle_info 6)).2.buffer_free
      = (idle_info 6).buffer_free
        - ((stereo_frame.header.blocksize * stereo_frame.header.channels : Nat) : Int)) ∧
    (List.range 6).map (write_callback stereo_frame stereo_samples (idle_info 6)).2.output_buffer
      = [11, 21, 12, 22, 13, 23] ∧
    (write_callback stereo_frame stereo_samples (idle_info 6)).2.buffer_used = 6 ∧
    (write_callback stereo_frame stereo_samples (idle_info 6)).2.buffer_free = 0 :=
  ⟨⟨by decide, by decide⟩, by decide, by decide,
    write_callback_interleaves stereo_frame stereo_samples (idle_info 6)
      ⟨by decide, by decide⟩ (by decide) (by decide),
    by decide, by decide, by decide⟩

/-- Beyond the limits of the format the `short` channel counter matters: for the frame of
one sample in 32769 channels, which fits a buffer with 32769 free words, the counter wraps
after 32768 channels, so the cursor advances by 32768 words only, buffer_used grows by 32768,
one word stays free and the word at p + 32768 is not the sample of channel 32768. -/
theorem write_callback_wide_frame :
    wide_frame.header.bits_per_sample = 16 ∧
    ((wide_frame.header.blocksize * wide_frame.header.channels : Nat) : Int)
      ≤ (idle_info 32769).buffer_free ∧
    wide_frame.header.blocksize * wide_frame.header.channels = 32769 ∧
    (write_callback wide_frame channel_ramp (idle_info 32769)).2.write_pointer
      = (idle_info 32769).write_pointer + 32768 ∧
    (write_callback wide_frame channel_ramp (idle_info 32769)).2.buffer_used
      = (idle_info 32769).buffer_used + 32768 ∧
    (write_callback wide_frame channel_ramp (idle_info 32769)).2.buffer_free = 1 ∧
    (write_callback wide_frame channel_ramp (idle_info 32769)).2.output_buffer
        ((idle_info 32769).write_pointer + 0 * wide_frame.header.channels + 32768) = 0 ∧
    channel_ramp 32768 0 = 32769 := by
  have h := write_callback_accept wide_frame channel_ramp (idle_info 32769)
    (by decide) (by decide) (by decide)
  have ht : channel_trips wide_frame.header.channels = 32768 := by decide
  rw [h, ht]
  refine ⟨rfl, by decide, rfl, rfl, rfl, ?_, ?_, rfl⟩
  · simp [stored, idle_info, wide_frame]
  · simp [stored, idle_info, wide_frame]

/-- C2: for every frame the decoder delivers and every context with blocksize*channels
greater than buffer_free, write_callback returns ABORT and leaves the context as it was:
buffer contents, write cursor, buffer_free and buffer_used are unchanged (no partial
interleave). -/
theorem write_callback_capacity_abort (frame : FLAC__Frame) (buffer : Int → Nat → Int)
    (info : callback_info F) (hdeliv : deliverable frame)
    (hfree : info.buffer_free
      < ((frame.header.blocksize * frame.header.channels : Nat) : Int)) :
    (write_callback frame buffer info).1 = FLAC__STREAM_DECODER_WRITE_STATUS_ABORT ∧
    (write_callback frame buffer info).2 = info ∧
    (write_callback frame buffer info).2.output_buffer = info.output_buffer ∧
    (write_callback frame buffer info).2.write_pointer = info.write_pointer ∧
    (write_callback frame buffer info).2.buffer_free = info.buffer_free ∧
    (write_callback frame buffer info).2.buffer_used = info.buffer_used := by
  have hwrap : info.buffer_free
      < (((frame.header.blocksize * frame.header.channels) % 4294967296 : Nat) : Int) := by
    rw [(deliverable_bounds frame hdeliv).2.2]
    exact hfree
  rw [write_callback_reject_capacity frame buffer info hwrap]
  exact ⟨rfl, rfl, rfl, rfl, rfl, rfl⟩

/-- Witness of C2: the stereo frame of three samples needs six words and finds five free. -/
theorem write_callback_capacity_abort_witness :
    deliverable stereo_frame ∧
    (idle_info 5).buffer_free
      < ((stereo_frame.header.blocksize * stereo_frame.header.channels : Nat) : Int) ∧
    (write_callback stereo_frame stereo_samples (idle_info 5)).1
      = FLAC__STREAM_DECODER_WRITE_STATUS_ABORT ∧
    (write_callback stereo_frame stereo_samples (idle_info 5)).2 = idle_info 5 ∧
    (write_callback stereo_frame stereo_samples (idle_info 5)).2.output_buffer
      = (idle_info 5).output_buffer ∧
    (write_callback stereo_frame stereo_samples (idle_info 5)).2.write_pointer
      = (idle_info 5).write_pointer ∧
    (write_callback stereo_frame stereo_samples (idle_info 5)).2.buffer_free
      = (idle_info 5).buffer_free ∧
    (write_callback stereo_frame stereo_samples (idle_info 5)).2.buffer_used
      = (idle_info 5).buffer_used :=
  ⟨⟨by decide, by decide⟩, by decide,
    write_callback_capacity_abort stereo_frame stereo_samples (idle_info 5)
      ⟨by decide, by decide⟩ (by decide)⟩

/-- Beyond the limits of the format the width of the product matters: the stereo frame of
2^31 samples per channel holds 2^32 words, the 32-bit product of the capacity test is 0, and
with no free word the frame is accepted and the write cursor moves by 2^32 words. -/
theorem write_callback_long_frame :
    (idle_info 0).buffer_free
      < ((long_frame.header.blocksize * long_frame.header.channels : Nat) : Int) ∧
    (write_callback long_frame stereo_samples (idle_info 0)).1
      = FLAC__STREAM_DECODER_WRITE_STATUS_CONTINUE ∧
    (write_callback long_frame stereo_samples (idle_info 0)).2.write_pointer
      = (idle_info 0).write_pointer + 4294967296 := by
  have h := write_callback_accept long_frame stereo_samples (idle_info 0)
    (by decide) (by decide) (by decide)
  have ht : channel_trips long_frame.header.channels = 2 := by decide
  rw [h, ht]
  exact ⟨by decide, rfl, rfl⟩

/-- C3: write_callback with bits_per_sample not in {8,16,24,32} returns ABORT and leaves the
context as it was: buffer contents, write cursor, buffer_free and buffer_used are unchanged. -/
theorem write_callback_depth_abort (frame : FLAC__Frame) (buffer : Int → Nat → Int)
    (info : callback_info F)
    (hbits : frame.header.bits_per_sample ≠ 8 ∧ frame.header.bits_per_sample ≠ 16 ∧
      frame.header.bits_per_sample ≠ 24 ∧ frame.header.bits_per_sample ≠ 32) :
    (write_callback frame buffer info).1 = FLAC__STREAM_DECODER_WRITE_STATUS_ABORT ∧
    (write_callback frame buffer info).2 = info ∧
    (write_callback frame buffer info).2.output_buffer = info.output_buffer ∧
    (write_callback frame buffer info).2.write_pointer = info.write_pointer ∧
    (write_callback frame buffer info).2.buffer_free = info.buffer_free ∧
    (write_callback frame buffer info).2.buffer_used = info.buffer_used := by
  rw [write_callback_reject_bits frame buffer info hbits]
  exact ⟨rfl, rfl, rfl, rfl, rfl, rfl⟩

/-- Witness of C3: a 12-bit stereo frame of three samples offered to a buffer with room. -/
theorem write_callback_depth_abort_witness :
    (odd_depth_frame.header.bits_per_sample ≠ 8 ∧ odd_depth_frame.header.bits_per_sample ≠ 16 ∧
      odd_depth_frame.header.bits_per_sample ≠ 24 ∧
      odd_depth_frame.header.bits_per_sample ≠ 32) ∧
    (write_callback odd_depth_frame stereo_samples (idle_info 100)).1
      = FLAC__STREAM_DECODER_WRITE_STATUS_ABORT ∧
    (write_callback odd_depth_frame stereo_samples (idle_info 100)).2 = idle_info 100 ∧
    (write_callback odd_depth_frame stereo_samples (idle_info 100)).2.output_buffer
      = (idle_info 100).output_buffer ∧
    (write_callback odd_depth_frame stereo_samples (idle_info 100)).2.write_pointer
      = (idle_info 100).write_pointer ∧
    (write_callback odd_depth_frame stereo_samples (idle_info 100)).2.buffer_free
      = (idle_info 100).buffer_free ∧
    (write_callback odd_depth_frame stereo_samples (idle_info 100)).2.buffer_used
      = (idle_info 100).buffer_used :=
  ⟨by decide, write_callback_depth_abort odd_depth_frame stereo_samples (idle_info 100)
    (by decide)⟩

/-- One iteration of the inner loop keeps `buffer_used + buffer_free`. -/
theorem write_sample_sum (buffer : Int → Nat → Int) (channel : Int) (sample : Nat)
    (info : callback_info F) :
    (write_sample buffer channel sample info).buffer_used
        + (write_sample buffer channel sample info).buffer_free
      = info.buffer_used + info.buffer_free := by
  simp only [write_sample]
  ring

/-- The inner loop keeps `buffer_used + buffer_free`, whatever its fuel. -/
theorem channel_loop_sum (frame : FLAC__Frame) (buffer : Int → Nat → Int) (sample : Nat) :
    ∀ (fuel : Nat) (channel : Int) (info : callback_info F),
      (channel_loop frame buffer sample fuel channel info).buffer_used
          + (channel_loop frame buffer sample fuel channel info).buffer_free
        = info.buffer_used + info.buffer_free := by
  intro fuel
  induction fuel with
  | zero => intro channel info; rfl
  | succ fuel ih =>
    intro channel info
    rw [channel_loop]
    split_ifs
    · rw [ih, write_sample_sum]
    · rfl

/-- The outer loop keeps `buffer_used + buffer_free`, whatever its fuel. -/
theorem sample_loop_sum (frame : FLAC__Frame) (buffer : Int → Nat → Int) :
    ∀ (fuel sample : Nat) (info : callback_info F),
      (sample_loop frame buffer fuel sample info).buffer_used
          + (sample_loop frame buffer fuel sample info).buffer_free
        = info.buffer_used + info.buffer_free := by
  intro fuel
  induction fuel with
  | zero => intro sample info; rfl
  | succ fuel ih =>
    intro sample info
    rw [sample_loop]
    split_ifs
    · rw [ih, channel_loop_sum]
    · rfl

/-- Every call of `write_callback` keeps `buffer_used + buffer_free`. -/
theorem write_callback_sum (frame : FLAC__Frame) (buffer : Int → Nat → Int)
    (info : callback_info F) :
    (write_callback frame buffer info).2.buffer_used
        + (write_callback frame buffer info).2.buffer_free
      = info.buffer_used + info.buffer_free := by
  unfold write_callback
  split_ifs
  · rfl
  · rfl
  · simp only [sample_loop_sum]

/-- A call of `write_callback` that returns ABORT has changed nothing. -/
theorem write_callback_abort_unchanged (frame : FLAC__Frame) (buffer : Int → Nat → Int)
    (info : callback_info F)
    (h : (write_callback frame buffer info).1 = FLAC__STREAM_DECODER_WRITE_STATUS_ABORT) :
    (write_callback frame buffer info).2 = info := by
  unfold write_callback at h ⊢
  split_ifs at h ⊢
  · rfl
  · rfl

/-- For a frame of fewer than 2^32 words `buffer_free` stays between 0 and its entry value. -/
theorem write_callback_free_bounds (frame : FLAC__Frame) (buffer : Int → Nat → Int)
    (info : callback_info F) (hfree : 0 ≤ info.buffer_free)
    (hprod : frame.header.blocksize * frame.header.channels < 4294967296) :
    0 ≤ (write_callback frame buffer info).2.buffer_free ∧
    (write_callback frame buffer info).2.buffer_free ≤ info.buffer_free := by
  by_cases hcap : info.buffer_free
      < (((frame.header.blocksize * frame.header.channels) % 4294967296 : Nat) : Int)
  · rw [write_callback_reject_capacity frame buffer info hcap]
    exact ⟨hfree, le_refl _⟩
  by_cases hbits : frame.header.bits_per_sample ≠ 8 ∧ frame.header.bits_per_sample ≠ 16 ∧
      frame.header.bits_per_sample ≠ 24 ∧ frame.header.bits_per_sample ≠ 32
  · rw [write_callback_reject_bits frame buffer info hbits]
    exact ⟨hfree, le_refl _⟩
  rcases Nat.eq_zero_or_pos frame.header.blocksize with hbs | hbs
  · unfold write_callback
    rw [if_neg hcap, if_neg hbits, hbs]
    simp only [sample_loop, hbs, Nat.lt_irrefl, if_false]
    exact ⟨hfree, le_refl _⟩
  · have hch : frame.header.channels < 4294967296 :=
      lt_of_le_of_lt (Nat.le_mul_of_pos_left _ hbs) hprod
    rw [write_callback_accept frame buffer info hch (not_lt.mp hcap) (by omega)]
    have hT := channel_trips_le _ hch
    have hn : frame.header.blocksize * channel_trips frame.header.channels
        ≤ frame.header.blocksize * frame.header.channels := Nat.mul_le_mul_left _ hT
    rw [Nat.mod_eq_of_lt hprod] at hcap
    simp only [stored]
    omega

/-- C4: for every context in which buffer_used + buffer_free equals the buffer capacity
(buffer_free, a count, not being negative) and every frame the decoder delivers, after the
call of write_callback, whether it returns CONTINUE or ABORT, buffer_used + buffer_free
still equals the capacity and buffer_free is not negative; buffer_free has dropped by exactly
the number of words the cursor has passed, one decrement per stored word, so no decrement
went below zero. -/
theorem write_callback_accounting (frame : FLAC__Frame) (buffer : Int → Nat → Int)
    (info : callback_info F) (capacity : Int) (hdeliv : deliverable frame)
    (hcap : info.buffer_used + info.buffer_free = capacity)
    (hfree : 0 ≤ info.buffer_free) :
    (write_callback frame buffer info).2.buffer_used
        + (write_callback frame buffer info).2.buffer_free = capacity ∧
    0 ≤ (write_callback frame buffer info).2.buffer_free ∧
    (write_callback frame buffer info).2.buffer_free ≤ info.buffer_free ∧
    info.write_pointer ≤ (write_callback frame buffer info).2.write_pointer ∧
    (write_callback frame buffer info).2.buffer_free
      = info.buffer_free
        - (((write_callback frame buffer info).2.write_pointer - info.write_pointer : Nat)
            : Int) := by
  obtain ⟨hchan, hprod, hmod⟩ := deliverable_bounds frame hdeliv
  refine ⟨by rw [write_callback_sum, hcap], ?_⟩
  by_cases hcapacity : info.buffer_free
      < (((frame.header.blocksize * frame.header.channels) % 4294967296 : Nat) : Int)
  · rw [write_callback_reject_capacity frame buffer info hcapacity]
    exact ⟨hfree, le_refl _, le_refl _, by simp⟩
  by_cases hbits : frame.header.bits_per_sample ≠ 8 ∧ frame.header.bits_per_sample ≠ 16 ∧
      frame.header.bits_per_sample ≠ 24 ∧ frame.header.bits_per_sample ≠ 32
  · rw [write_callback_reject_bits frame buffer info hbits]
    exact ⟨hfree, le_refl _, le_refl _, by simp⟩
  rw [hmod] at hcapacity
  rw [write_callback_accept_fit frame buffer info (by omega) hchan (not_lt.mp hcapacity)]
  simp only [stored]
  refine ⟨by omega, by omega, by omega, ?_⟩
  rw [Nat.add_sub_cancel_left]

/-- Witness of C4: the stereo frame of three samples written into a buffer of capacity six
keeps the sum at six and takes buffer_free from six to zero, one decrement per word. -/
theorem write_callback_accounting_witness :
    deliverable stereo_frame ∧
    (idle_info 6).buffer_used + (idle_info 6).buffer_free = 6 ∧
    0 ≤ (idle_info 6).buffer_free ∧
    ((write_callback stereo_frame stereo_samples (idle_info 6)).2.buffer_used
        + (write_callback stereo_frame stereo_samples (idle_info 6)).2.buffer_free = 6 ∧
    0 ≤ (write_callback stereo_frame stereo_samples (idle_info 6)).2.buffer_free ∧
    (write_callback stereo_frame stereo_samples (idle_info 6)).2.buffer_free
      ≤ (idle_info 6).buffer_free ∧
    (idle_info 6).write_pointer
      ≤ (write_callback stereo_frame stereo_samples (idle_info 6)).2.write_pointer ∧
    (write_callback stereo_frame stereo_samples (idle_info 6)).2.buffer_free
      = (idle_info 6).buffer_free
        - (((write_callback stereo_frame stereo_samples (idle_info 6)).2.write_pointer
            - (idle_info 6).write_pointer : Nat) : Int)) ∧
    (write_callback stereo_frame stereo_samples (idle_info 6)).2.buffer_free = 0 :=
  ⟨⟨by decide, by decide⟩, by decide, by decide,
    write_callback_accounting stereo_frame stereo_samples (idle_info 6) 6
      ⟨by decide, by decide⟩ (by decide) (by decide),
    by decide⟩

/-! ## The metadata callback: bitrate -/

/-- An `int64_t` product may be computed from the unreduced left factor. -/
theorem toInt64_mul_left (a b : Int) : toInt64 (toInt64 a * b) = toInt64 (a * b) := by
  have h : toInt64 a = a - 18446744073709551616 * ((a + 9223372036854775808) / 18446744073709551616) := by
    unfold toInt64
    omega
  rw [h]
  unfold toInt64
  have : (a - 18446744073709551616 * ((a + 9223372036854775808) / 18446744073709551616)) * b
      + 9223372036854775808
      = (a * b + 9223372036854775808)
        + 18446744073709551616 * (-(((a + 9223372036854775808) / 18446744073709551616) * b)) := by
    ring
  rw [this, Int.add_mul_emod_self_left]

/-- Within the ranges of `int64_t` and `int` the bitrate expression is the exact quotient. -/
theorem bitrate_of_eq (size : Int) (samplerate samples : Nat) (hsize : 0 ≤ size)
    (hprod : 8 * size * (samplerate : Int) < 9223372036854775808)
    (hquot : 8 * size * (samplerate : Int) / (samples : Int) < 2147483648) :
    bitrate_of size samplerate samples = 8 * size * (samplerate : Int) / (samples : Int) := by
  have hnn : 0 ≤ 8 * size * (samplerate : Int) := by positivity
  have hq : 0 ≤ 8 * size * (samplerate : Int) / (samples : Int) :=
    Int.ediv_nonneg hnn (by positivity)
  unfold bitrate_of
  rw [toInt64_mul_left]
  have h1 : toInt64 (8 * size * (samplerate : Int)) = 8 * size * (samplerate : Int) := by
    unfold toInt64
    omega
  have h2 : toUInt64 (8 * size * (samplerate : Int)) = 8 * size * (samplerate : Int) := by
    unfold toUInt64
    omega
  rw [h1, h2]
  unfold toInt
  omega

/-- C5 (amended): for every STREAMINFO block with sample rate R and total_samples T > 0,
processed while the handle reports a known byte size S (S >= 0), the stored bitrate equals
floor(8*S*R/T), provided the product 8*S*R is below 2^63 and the quotient is below 2^31, the
ranges of the `int64_t` product and of the `int` bitrate field. -/
theorem metadata_callback_bitrate (V : Vfs F W) (metadata : FLAC__StreamMetadata)
    (info : callback_info F) (env : Env F W) (S : Int)
    (htype : metadata.type = FLAC__METADATA_TYPE_STREAMINFO)
    (hT : 0 < metadata.data.stream_info.total_samples)
    (hsize : (V.fsize env.world info.fd).1 = S) (hS : 0 ≤ S)
    (hprod : 8 * S * (metadata.data.stream_info.sample_rate : Int) < 9223372036854775808)
    (hquot : 8 * S * (metadata.data.stream_info.sample_rate : Int)
      / (metadata.data.stream_info.total_samples : Int) < 2147483648) :
    (metadata_callback V metadata info env).1.bitrate
      = 8 * S * (metadata.data.stream_info.sample_rate : Int)
        / (metadata.data.stream_info.total_samples : Int) := by
  unfold metadata_callback
  rw [if_pos htype]
  simp only [vfs_fsize, hsize]
  rw [if_neg (by omega), bitrate_of_eq S _ _ hS hprod hquot]

/-- Witness of C5: a file of 1,000,000 bytes, 44100 Hz and 1,000,000 samples give the
bitrate 352800. -/
theorem metadata_callback_bitrate_witness :
    (streaminfo_block 44100 1000000).type = FLAC__METADATA_TYPE_STREAMINFO ∧
    0 < (streaminfo_block 44100 1000000).data.stream_info.total_samples ∧
    ((fixed_vfs 0 0 1000000).fsize fresh_env.world bound_info.fd).1 = 1000000 ∧
    (0 : Int) ≤ 1000000 ∧
    (metadata_callback (fixed_vfs 0 0 1000000) (streaminfo_block 44100 1000000) bound_info
      fresh_env).1.bitrate
      = 8 * 1000000 * ((streaminfo_block 44100 1000000).data.stream_info.sample_rate : Int)
        / ((streaminfo_block 44100 1000000).data.stream_info.total_samples : Int) ∧
    (metadata_callback (fixed_vfs 0 0 1000000) (streaminfo_block 44100 1000000) bound_info
      fresh_env).1.bitrate = 352800 :=
  ⟨rfl, by decide, rfl, by decide,
    metadata_callback_bitrate (fixed_vfs 0 0 1000000) (streaminfo_block 44100 1000000)
      bound_info fresh_env 1000000 rfl (by decide) rfl (by decide) (by decide) (by decide),
    by decide⟩

/-- Counterexample to C5 as stated: for a file of 1,000,000,000 bytes whose STREAMINFO block
announces 44100 Hz and a single sample, floor(8*S*R/T) is 352800000000000, which the `int`
bitrate field cannot hold; the stored bitrate is -1498595328. -/
theorem metadata_callback_bitrate_counterexample :
    (streaminfo_block 44100 1).type = FLAC__METADATA_TYPE_STREAMINFO ∧
    0 < (streaminfo_block 44100 1).data.stream_info.total_samples ∧
    ((fixed_vfs 0 0 1000000000).fsize fresh_env.world bound_info.fd).1 = 1000000000 ∧
    (8 * 1000000000 * 44100 / 1 : Int) = 352800000000000 ∧
    (metadata_callback (fixed_vfs 0 0 1000000000) (streaminfo_block 44100 1) bound_info
      fresh_env).1.bitrate = -1498595328 := by
  refine ⟨rfl, by decide, rfl, by decide, by decide⟩

/-- C6: for every STREAMINFO block with total_samples = 0 the stored bitrate is 0 whatever
size the handle reports, and for every STREAMINFO block processed while the handle reports
an unknown size (the sentinel -1) the stored bitrate is 0 whatever total_samples is. -/
theorem metadata_callback_bitrate_unknown (V : Vfs F W) (metadata : FLAC__StreamMetadata)
    (info : callback_info F) (env : Env F W)
    (htype : metadata.type = FLAC__METADATA_TYPE_STREAMINFO)
    (hunknown : metadata.data.stream_info.total_samples = 0 ∨
      (V.fsize env.world info.fd).1 = -1) :
    (metadata_callback V metadata info env).1.bitrate = 0 := by
  unfold metadata_callback
  rw [if_pos htype]
  simp only [vfs_fsize]
  rw [if_pos (by tauto)]

/-- Witness of C6: a STREAMINFO block with total_samples = 0 over a file of 1,000,000
bytes, and a STREAMINFO block with 1,000,000 samples over a handle of unknown size. -/
theorem metadata_callback_bitrate_unknown_witness :
    ((streaminfo_block 44100 0).type = FLAC__METADATA_TYPE_STREAMINFO ∧
      (streaminfo_block 44100 0).data.stream_info.total_samples = 0 ∧
      (metadata_callback (fixed_vfs 0 0 1000000) (streaminfo_block 44100 0) bound_info
        fresh_env).1.bitrate = 0) ∧
    ((streaminfo_block 44100 1000000).type = FLAC__METADATA_TYPE_STREAMINFO ∧
      ((fixed_vfs 0 0 (-1)).fsize fresh_env.world bound_info.fd).1 = -1 ∧
      (metadata_callback (fixed_vfs 0 0 (-1)) (streaminfo_block 44100 1000000) bound_info
        fresh_env).1.bitrate = 0) :=
  ⟨⟨rfl, rfl,
      metadata_callback_bitrate_unknown (fixed_vfs 0 0 1000000) (streaminfo_block 44100 0)
        bound_info fresh_env rfl (Or.inl rfl)⟩,
    ⟨rfl, rfl,
      metadata_callback_bitrate_unknown (fixed_vfs 0 0 (-1)) (streaminfo_block 44100 1000000)
        bound_info fresh_env rfl (Or.inr rfl)⟩⟩

/-! ## The read and length callbacks -/

/-- C7 (amended): read_callback with a requested count N == 0 and a bound file handle returns
END_OF_STREAM without invoking any primitive of the handle: the trace and the state of the
file layer are as before, as are the destination, the count and the context. -/
theorem read_callback_zero (V : Vfs F W) (buffer : List Nat) (info : callback_info F)
    (env : Env F W) (fd : F) (hfd : info.fd = some fd) :
    (read_callback V buffer 0 info env).status
      = FLAC__STREAM_DECODER_READ_STATUS_END_OF_STREAM ∧
    (read_callback V buffer 0 info env).env.trace = env.trace ∧
    (read_callback V buffer 0 info env).env = env ∧
    (read_callback V buffer 0 info env).buffer = buffer ∧
    (read_callback V buffer 0 info env).bytes = 0 ∧
    (read_callback V buffer 0 info env).info = info := by
  unfold read_callback
  simp [hfd]

/-- Witness of C7: a read of 0 bytes on the bound idle context. -/
theorem read_callback_zero_witness :
    bound_info.fd = some () ∧
    (read_callback (fixed_vfs 5 0 100) [] 0 bound_info fresh_env).status
      = FLAC__STREAM_DECODER_READ_STATUS_END_OF_STREAM ∧
    (read_callback (fixed_vfs 5 0 100) [] 0 bound_info fresh_env).env.trace
      = fresh_env.trace ∧
    (read_callback (fixed_vfs 5 0 100) [] 0 bound_info fresh_env).env = fresh_env ∧
    (read_callback (fixed_vfs 5 0 100) [] 0 bound_info fresh_env).buffer = [] ∧
    (read_callback (fixed_vfs 5 0 100) [] 0 bound_info fresh_env).bytes = 0 ∧
    (read_callback (fixed_vfs 5 0 100) [] 0 bound_info fresh_env).info = bound_info :=
  ⟨rfl, read_callback_zero (fixed_vfs 5 0 100) [] bound_info fresh_env () rfl⟩

/-- Counterexample to C7 as stated: on a context whose file handle is null, a read with
requested count 0 returns ABORT, not END_OF_STREAM, because the handle is tested first. -/
theorem read_callback_zero_counterexample :
    (idle_info 0).fd = none ∧
    (read_callback (fixed_vfs 5 0 100) [] 0 (idle_info 0) fresh_env).status
      = FLAC__STREAM_DECODER_READ_STATUS_ABORT ∧
    (read_callback (fixed_vfs 5 0 100) [] 0 (idle_info 0) fresh_env).status
      ≠ FLAC__STREAM_DECODER_READ_STATUS_END_OF_STREAM := by
  refine ⟨rfl, rfl, by decide⟩

/-- C8: read_callback on a null file handle returns ABORT for every requested count N,
invokes no primitive of the handle (the trace and the state of the file layer are as before)
and leaves N, the destination and the context unchanged. -/
theorem read_callback_unbound (V : Vfs F W) (buffer : List Nat) (bytes : Int)
    (info : callback_info F) (env : Env F W) (hfd : info.fd = none) :
    (read_callback V buffer bytes info env).status = FLAC__STREAM_DECODER_READ_STATUS_ABORT ∧
    (read_callback V buffer bytes info env).env.trace = env.trace ∧
    (read_callback V buffer bytes info env).env = env ∧
    (read_callback V buffer bytes info env).bytes = bytes ∧
    (read_callback V buffer bytes info env).buffer = buffer ∧
    (read_callback V buffer bytes info env).info = info := by
  unfold read_callback
  simp [hfd]

/-- Witness of C8: a read of 4096 bytes on the idle context, whose handle is null. -/
theorem read_callback_unbound_witness :
    (idle_info 0).fd = none ∧
    (read_callback (fixed_vfs 5 0 100) [] 4096 (idle_info 0) fresh_env).status
      = FLAC__STREAM_DECODER_READ_STATUS_ABORT ∧
    (read_callback (fixed_vfs 5 0 100) [] 4096 (idle_info 0) fresh_env).env.trace
      = fresh_env.trace ∧
    (read_callback (fixed_vfs 5 0 100) [] 4096 (idle_info 0) fresh_env).env = fresh_env ∧
    (read_callback (fixed_vfs 5 0 100) [] 4096 (idle_info 0) fresh_env).bytes = 4096 ∧
    (read_callback (fixed_vfs 5 0 100) [] 4096 (idle_info 0) fresh_env).buffer = [] ∧
    (read_callback (fixed_vfs 5 0 100) [] 4096 (idle_info 0) fresh_env).info = idle_info 0 :=
  ⟨rfl, read_callback_unbound (fixed_vfs 5 0 100) [] 4096 (idle_info 0) fresh_env rfl⟩

/-- C9: for every bound handle and every requested count N > 0, read_callback invokes the
read primitive exactly once, with element size 1 and count N, and nothing else.  If the
primitive obtains k bytes with 1 <= k <= N (k a value of its `gint64` result type) the result
is CONTINUE and N is set to k; if it obtains 0 bytes the result is END_OF_STREAM and N is set
to 0; if it reports an error (-1) the result is ABORT. -/
theorem read_callback_outcomes (V : Vfs F W) (buffer : List Nat) (bytes : Int)
    (info : callback_info F) (env : Env F W) (fd : F) (hfd : info.fd = some fd)
    (hbytes : 0 < bytes) :
    (read_callback V buffer bytes info env).env.trace
      = env.trace ++ [VfsCall.fread 1 bytes (some fd)] ∧
    (∀ k : Int, (V.fread env.world buffer 1 bytes (some fd)).1 = k →
      1 ≤ k → k ≤ bytes → k < 9223372036854775808 →
      (read_callback V buffer bytes info env).status
        = FLAC__STREAM_DECODER_READ_STATUS_CONTINUE ∧
      (read_callback V buffer bytes info env).bytes = k) ∧
    ((V.fread env.world buffer 1 bytes (some fd)).1 = 0 →
      (read_callback V buffer bytes info env).status
        = FLAC__STREAM_DECODER_READ_STATUS_END_OF_STREAM ∧
      (read_callback V buffer bytes info env).bytes = 0) ∧
    ((V.fread env.world buffer 1 bytes (some fd)).1 = -1 →
      (read_callback V buffer bytes info env).status
        = FLAC__STREAM_DECODER_READ_STATUS_ABORT) := by
  have hne : bytes ≠ 0 := by omega
  unfold read_callback
  simp only [hfd, Option.isNone_some, Bool.false_eq_true, if_false, hne, vfs_fread]
  refine ⟨?_, ?_, ?_, ?_⟩
  · split_ifs <;> rfl
  · intro k hk h1 _ h3
    rw [hk]
    have hconv : toUInt64 k = k := by unfold toUInt64; omega
    have hsent : toUInt64 (-1) = 18446744073709551615 := by decide
    rw [hconv, hsent, if_neg (by omega), if_neg (by omega)]
    exact ⟨rfl, rfl⟩
  · intro h0
    have hzero : toUInt64 0 = 0 := by decide
    have hsent : toUInt64 (-1) = 18446744073709551615 := by decide
    rw [h0, hzero, hsent, if_neg (by decide), if_pos rfl]
    exact ⟨rfl, rfl⟩
  · intro h1
    rw [h1, if_pos rfl]

/-- Witness of C9: 8 bytes are requested from a bound handle whose read obtains 5; the
read primitive is invoked once with count 8, the result is CONTINUE and N becomes 5. -/
theorem read_callback_outcomes_witness :
    bound_info.fd = some () ∧ (0 : Int) < 8 ∧
    (read_callback (fixed_vfs 5 0 100) [] 8 bound_info fresh_env).env.trace
      = fresh_env.trace ++ [VfsCall.fread 1 8 (some ())] ∧
    (read_callback (fixed_vfs 5 0 100) [] 8 bound_info fresh_env).status
      = FLAC__STREAM_DECODER_READ_STATUS_CONTINUE ∧
    (read_callback (fixed_vfs 5 0 100) [] 8 bound_info fresh_env).bytes = 5 :=
  ⟨rfl, by decide,
    (read_callback_outcomes (fixed_vfs 5 0 100) [] 8 bound_info fresh_env () rfl
      (by decide)).1,
    (read_callback_outcomes (fixed_vfs 5 0 100) [] 8 bound_info fresh_env () rfl
      (by decide)).2.1 5 rfl (by decide) (by decide) (by decide)⟩

/-- C10: when the handle reports an unknown size (the sentinel -1), length_callback returns
UNSUPPORTED and the reported length is exactly 0, not the sentinel; when the handle reports
a size s (a non-negative value of its `gint64` result type), length_callback returns OK and
the reported length equals s. -/
theorem length_callback_outcomes (V : Vfs F W) (info : callback_info F) (env : Env F W) :
    ((V.fsize env.world info.fd).1 = -1 →
      (length_callback V info env).status
        = FLAC__STREAM_DECODER_LENGTH_STATUS_UNSUPPORTED ∧
      (length_callback V info env).length = 0) ∧
    (∀ s : Nat, (V.fsize env.world info.fd).1 = (s : Int) → s < 9223372036854775808 →
      (length_callback V info env).status = FLAC__STREAM_DECODER_LENGTH_STATUS_OK ∧
      (length_callback V info env).length = (s : Int)) := by
  have hsent : toUInt64 (-1) = 18446744073709551615 := by decide
  unfold length_callback
  simp only [vfs_fsize]
  refine ⟨?_, ?_⟩
  · intro h
    rw [h, if_pos rfl]
    exact ⟨rfl, rfl⟩
  · intro s h hs
    have hconv : toUInt64 (s : Int) = (s : Int) := by unfold toUInt64; omega
    rw [h, hconv, hsent, if_neg (by omega)]
    exact ⟨rfl, rfl⟩

/-- Witness of C10: a handle of unknown size gives UNSUPPORTED with length 0, a handle of
1000 bytes gives OK with length 1000. -/
theorem length_callback_outcomes_witness :
    ((length_callback (fixed_vfs 0 0 (-1)) bound_info fresh_env).status
        = FLAC__STREAM_DECODER_LENGTH_STATUS_UNSUPPORTED ∧
      (length_callback (fixed_vfs 0 0 (-1)) bound_info fresh_env).length = 0) ∧
    ((length_callback (fixed_vfs 0 0 1000) bound_info fresh_env).status
        = FLAC__STREAM_DECODER_LENGTH_STATUS_OK ∧
      (length_callback (fixed_vfs 0 0 1000) bound_info fresh_env).length = ((1000 : Nat) : Int)) :=
  ⟨(length_callback_outcomes (fixed_vfs 0 0 (-1)) bound_info fresh_env).1 rfl,
    (length_callback_outcomes (fixed_vfs 0 0 1000) bound_info fresh_env).2 1000 rfl
      (by decide)⟩

/-! ## Fields the loops of the write callback leave alone -/

/-- The inner loop changes neither the handle reference, the stream format, the flag, the
frame format nor the bitrate, whatever its fuel. -/
theorem channel_loop_rest (frame : FLAC__Frame) (buffer : Int → Nat → Int) (sample : Nat) :
    ∀ (fuel : Nat) (channel : Int) (info : callback_info F),
      (channel_loop frame buffer sample fuel channel info).fd = info.fd ∧
      (channel_loop frame buffer sample fuel channel info).stream = info.stream ∧
      (channel_loop frame buffer sample fuel channel info).metadata_changed
        = info.metadata_changed ∧
      (channel_loop frame buffer sample fuel channel info).frame = info.frame ∧
      (channel_loop frame buffer sample fuel channel info).bitrate = info.bitrate := by
  intro fuel
  induction fuel with
  | zero => intro channel info; exact ⟨rfl, rfl, rfl, rfl, rfl⟩
  | succ fuel ih =>
    intro channel info
    rw [channel_loop]
    split_ifs
    · exact ih _ _
    · exact ⟨rfl, rfl, rfl, rfl, rfl⟩

/-- The outer loop changes neither the handle reference, the stream format, the flag, the
frame format nor the bitrate, whatever its fuel. -/
theorem sample_loop_rest (frame : FLAC__Frame) (buffer : Int → Nat → Int) :
    ∀ (fuel sample : Nat) (info : callback_info F),
      (sample_loop frame buffer fuel sample info).fd = info.fd ∧
      (sample_loop frame buffer fuel sample info).stream = info.stream ∧
      (sample_loop frame buffer fuel sample info).metadata_changed = info.metadata_changed ∧
      (sample_loop frame buffer fuel sample info).frame = info.frame ∧
      (sample_loop frame buffer fuel sample info).bitrate = info.bitrate := by
  intro fuel
  induction fuel with
  | zero => intro sample info; exact ⟨rfl, rfl, rfl, rfl, rfl⟩
  | succ fuel ih =>
    intro sample info
    rw [sample_loop]
    split_ifs
    · obtain ⟨h1, h2, h3, h4, h5⟩ := ih (sample + 1)
        (channel_loop frame buffer sample channel_fuel 0 info)
      obtain ⟨k1, k2, k3, k4, k5⟩ := channel_loop_rest frame buffer sample channel_fuel 0 info
      exact ⟨h1.trans k1, h2.trans k2, h3.trans k3, h4.trans k4, h5.trans k5⟩
    · exact ⟨rfl, rfl, rfl, rfl, rfl⟩

/-- No call of `write_callback` changes the handle reference, the stream format, the flag or
the bitrate. -/
theorem write_callback_rest (frame : FLAC__Frame) (buffer : Int → Nat → Int)
    (info : callback_info F) :
    (write_callback frame buffer info).2.fd = info.fd ∧
    (write_callback frame buffer info).2.stream = info.stream ∧
    (write_callback frame buffer info).2.metadata_changed = info.metadata_changed ∧
    (write_callback frame buffer info).2.bitrate = info.bitrate := by
  unfold write_callback
  split_ifs
  · exact ⟨rfl, rfl, rfl, rfl⟩
  · exact ⟨rfl, rfl, rfl, rfl⟩
  · obtain ⟨h1, h2, h3, _, h5⟩ := sample_loop_rest frame buffer (frame.header.blocksize + 1) 0
      ({ info with
          frame :=
            { channels := frame.header.channels
              samplerate := frame.header.sample_rate
              bits_per_sample := frame.header.bits_per_sample } } : callback_info F)
    exact ⟨h1, h2, h3, h5⟩

/-- An accepting call of `write_callback` leaves the header's format in the frame format. -/
theorem write_callback_frame (frame : FLAC__Frame) (buffer : Int → Nat → Int)
    (info : callback_info F)
    (h : (write_callback frame buffer info).1 = FLAC__STREAM_DECODER_WRITE_STATUS_CONTINUE) :
    (write_callback frame buffer info).2.frame
      = { channels := frame.header.channels
          samplerate := frame.header.sample_rate
          bits_per_sample := frame.header.bits_per_sample } := by
  unfold write_callback at h ⊢
  split_ifs at h ⊢
  exact (sample_loop_rest frame buffer (frame.header.blocksize + 1) 0 _).2.2.2.1

/-- The status `write_callback` returns is decided by its two tests alone. -/
theorem write_callback_status (frame : FLAC__Frame) (buffer : Int → Nat → Int)
    (info : callback_info F) :
    (write_callback frame buffer info).1
      = if info.buffer_free
            < (((frame.header.blocksize * frame.header.channels) % 4294967296 : Nat) : Int) then
          FLAC__STREAM_DECODER_WRITE_STATUS_ABORT
        else if frame.header.bits_per_sample ≠ 8 ∧ frame.header.bits_per_sample ≠ 16 ∧
            frame.header.bits_per_sample ≠ 24 ∧ frame.header.bits_per_sample ≠ 32 then
          FLAC__STREAM_DECODER_WRITE_STATUS_ABORT
        else FLAC__STREAM_DECODER_WRITE_STATUS_CONTINUE := by
  unfold write_callback
  split_ifs <;> rfl

/-! ## The metadata flag, the metadata callback and the frame format -/

/-- The read callback hands the context back as it got it. -/
theorem read_callback_info (V : Vfs F W) (buffer : List Nat) (bytes : Int)
    (info : callback_info F) (env : Env F W) :
    (read_callback V buffer bytes info env).info = info := by
  unfold read_callback
  dsimp only
  split_ifs <;> rfl

/-- The seek callback hands the context back as it got it. -/
theorem seek_callback_info (V : Vfs F W) (offset : Int) (info : callback_info F)
    (env : Env F W) : (seek_callback V offset info env).info = info := by
  unfold seek_callback
  dsimp only
  split_ifs <;> rfl

/-- The tell callback hands the context back as it got it. -/
theorem tell_callback_info (V : Vfs F W) (info : callback_info F) (env : Env F W) :
    (tell_callback V info env).info = info := by
  unfold tell_callback
  dsimp only
  split_ifs <;> rfl

/-- The length callback hands the context back as it got it. -/
theorem length_callback_info (V : Vfs F W) (info : callback_info F) (env : Env F W) :
    (length_callback V info env).info = info := by
  unfold length_callback
  dsimp only
  split_ifs <;> rfl

/-- The flag after the metadata callback: set by a STREAMINFO block, kept otherwise. -/
theorem metadata_callback_flag (V : Vfs F W) (block : FLAC__StreamMetadata)
    (info : callback_info F) (env : Env F W) :
    (metadata_callback V block info env).1.metadata_changed
      = (info.metadata_changed || decide (block.type = FLAC__METADATA_TYPE_STREAMINFO)) := by
  unfold metadata_callback
  by_cases h : block.type = FLAC__METADATA_TYPE_STREAMINFO
  · simp [h]
  · simp [h]

/-- The flag after one callback invocation: set by the metadata callback on a STREAMINFO
block, kept by every other invocation. -/
theorem invoke_flag (V : Vfs F W) (call : Call) (st : State F W) :
    (invoke V call st).info.metadata_changed
      = (st.info.metadata_changed || processes_streaminfo call) := by
  cases call with
  | read buffer bytes => simp [invoke, processes_streaminfo, read_callback_info]
  | seek offset => simp [invoke, processes_streaminfo, seek_callback_info]
  | tell => simp [invoke, processes_streaminfo, tell_callback_info]
  | eof => simp [invoke, processes_streaminfo, eof_callback]
  | length => simp [invoke, processes_streaminfo, length_callback_info]
  | write frame buffer =>
    simp [invoke, processes_streaminfo, (write_callback_rest frame buffer st.info).2.2.1]
  | error status => simp [invoke, processes_streaminfo, error_callback]
  | metadata block => simp [invoke, processes_streaminfo, metadata_callback_flag]

/-- The flag after a sequence of callback invocations. -/
theorem run_flag (V : Vfs F W) :
    ∀ (calls : List Call) (st : State F W),
      (run V calls st).info.metadata_changed
        = (st.info.metadata_changed || calls.any processes_streaminfo) := by
  intro calls
  induction calls with
  | nil => intro st; simp [run]
  | cons call calls ih =>
    intro st
    rw [run, ih, invoke_flag, List.any_cons, Bool.or_assoc]

/-- C11: after metadata_callback processes a STREAMINFO block the metadata_changed flag is
true whatever its previous value; no callback of this layer (read, seek, tell, eof, length,
write, error, metadata) changes the flag from true to false; and starting from false, after
any sequence of callback invocations the flag is true exactly when a STREAMINFO block has
been processed in the sequence, so it becomes true at the first such block. -/
theorem metadata_changed_flag (V : Vfs F W) :
    (∀ (block : FLAC__StreamMetadata) (info : callback_info F) (env : Env F W),
      block.type = FLAC__METADATA_TYPE_STREAMINFO →
      (metadata_callback V block info env).1.metadata_changed = true) ∧
    (∀ (call : Call) (st : State F W), st.info.metadata_changed = true →
      (invoke V call st).info.metadata_changed = true) ∧
    (∀ (calls : List Call) (st : State F W), st.info.metadata_changed = false →
      (run V calls st).info.metadata_changed = calls.any processes_streaminfo) := by
  refine ⟨?_, ?_, ?_⟩
  · intro block info env h
    rw [metadata_callback_flag, h]
    simp
  · intro call st h
    rw [invoke_flag, h]
    simp
  · intro calls st h
    rw [run_flag, h]
    simp

/-- Witness of C11: from a context with the flag false, a read, a PADDING block and a
written frame leave the flag false; the STREAMINFO block that follows sets it, and the seek
and the PADDING block after it leave it true. -/
theorem metadata_changed_flag_witness :
    bound_info.metadata_changed = false ∧
    (run (fixed_vfs 5 0 100)
      [Call.read [] 8, Call.metadata padding_block, Call.write stereo_frame stereo_samples]
      ⟨bound_info, fresh_env⟩).info.metadata_changed = false ∧
    (run (fixed_vfs 5 0 100)
      [Call.read [] 8, Call.metadata padding_block, Call.write stereo_frame stereo_samples,
        Call.metadata (streaminfo_block 44100 1000000)]
      ⟨bound_info, fresh_env⟩).info.metadata_changed = true ∧
    (run (fixed_vfs 5 0 100)
      [Call.read [] 8, Call.metadata padding_block, Call.write stereo_frame stereo_samples,
        Call.metadata (streaminfo_block 44100 1000000), Call.seek 0,
        Call.metadata padding_block]
      ⟨bound_info, fresh_env⟩).info.metadata_changed = true :=
  ⟨rfl,
    ((metadata_changed_flag (fixed_vfs 5 0 100)).2.2 _ ⟨bound_info, fresh_env⟩ rfl).trans
      (by decide),
    ((metadata_changed_flag (fixed_vfs 5 0 100)).2.2 _ ⟨bound_info, fresh_env⟩ rfl).trans
      (by decide),
    ((metadata_changed_flag (fixed_vfs 5 0 100)).2.2 _ ⟨bound_info, fresh_env⟩ rfl).trans
      (by decide)⟩

/-- C12: metadata_callback ignores every block whose type is not STREAMINFO: the context
after the call is the one before (stream format, bitrate, metadata_changed, frame format and
the output buffer state unchanged) and no primitive of the handle is invoked, the size
primitive in particular: the trace and the state of the file layer are as before. -/
theorem metadata_callback_ignores (V : Vfs F W) (block : FLAC__StreamMetadata)
    (info : callback_info F) (env : Env F W)
    (htype : block.type ≠ FLAC__METADATA_TYPE_STREAMINFO) :
    (metadata_callback V block info env).1 = info ∧
    (metadata_callback V block info env).1.stream = info.stream ∧
    (metadata_callback V block info env).1.bitrate = info.bitrate ∧
    (metadata_callback V block info env).1.metadata_changed = info.metadata_changed ∧
    (metadata_callback V block info env).1.frame = info.frame ∧
    (metadata_callback V block info env).1.output_buffer = info.output_buffer ∧
    (metadata_callback V block info env).1.write_pointer = info.write_pointer ∧
    (metadata_callback V block info env).1.buffer_free = info.buffer_free ∧
    (metadata_callback V block info env).1.buffer_used = info.buffer_used ∧
    (metadata_callback V block info env).2.trace = env.trace ∧
    (metadata_callback V block info env).2 = env := by
  unfold metadata_callback
  rw [if_neg htype]
  exact ⟨rfl, rfl, rfl, rfl, rfl, rfl, rfl, rfl, rfl, rfl, rfl⟩

/-- Witness of C12: a PADDING block handed to the bound idle context. -/
theorem metadata_callback_ignores_witness :
    padding_block.type ≠ FLAC__METADATA_TYPE_STREAMINFO ∧
    (metadata_callback (fixed_vfs 5 0 100) padding_block bound_info fresh_env).1 = bound_info ∧
    (metadata_callback (fixed_vfs 5 0 100) padding_block bound_info fresh_env).2.trace = [] ∧
    (metadata_callback (fixed_vfs 5 0 100) padding_block bound_info fresh_env).2 = fresh_env :=
  ⟨by decide,
    (metadata_callback_ignores (fixed_vfs 5 0 100) padding_block bound_info fresh_env
      (by decide)).1,
    (metadata_callback_ignores (fixed_vfs 5 0 100) padding_block bound_info fresh_env
      (by decide)).2.2.2.2.2.2.2.2.2.1,
    (metadata_callback_ignores (fixed_vfs 5 0 100) padding_block bound_info fresh_env
      (by decide)).2.2.2.2.2.2.2.2.2.2⟩

/-- C13: metadata_callback on a STREAMINFO block sets the stream format to the block's
values: afterwards stream.samples, stream.bits_per_sample, stream.channels and
stream.samplerate equal the block's total_samples, bits_per_sample, channels and sample_rate,
while the output buffer contents, the write cursor, buffer_free, buffer_used and the frame
format are unchanged. -/
theorem metadata_callback_stream (V : Vfs F W) (block : FLAC__StreamMetadata)
    (info : callback_info F) (env : Env F W)
    (htype : block.type = FLAC__METADATA_TYPE_STREAMINFO) :
    (metadata_callback V block info env).1.stream.samples
      = block.data.stream_info.total_samples ∧
    (metadata_callback V block info env).1.stream.bits_per_sample
      = block.data.stream_info.bits_per_sample ∧
    (metadata_callback V block info env).1.stream.channels
      = block.data.stream_info.channels ∧
    (metadata_callback V block info env).1.stream.samplerate
      = block.data.stream_info.sample_rate ∧
    (metadata_callback V block info env).1.output_buffer = info.output_buffer ∧
    (metadata_callback V block info env).1.write_pointer = info.write_pointer ∧
    (metadata_callback V block info env).1.buffer_free = info.buffer_free ∧
    (metadata_callback V block info env).1.buffer_used = info.buffer_used ∧
    (metadata_callback V block info env).1.frame = info.frame := by
  unfold metadata_callback
  rw [if_pos htype]
  exact ⟨rfl, rfl, rfl, rfl, rfl, rfl, rfl, rfl, rfl⟩

/-- Witness of C13: the STREAMINFO block of a 16-bit stereo stream at 44100 Hz with
1,000,000 samples, handed to the bound idle context. -/
theorem metadata_callback_stream_witness :
    (streaminfo_block 44100 1000000).type = FLAC__METADATA_TYPE_STREAMINFO ∧
    (metadata_callback (fixed_vfs 5 0 100) (streaminfo_block 44100 1000000) bound_info
      fresh_env).1.stream
      = { samples := 1000000, bits_per_sample := 16, channels := 2, samplerate := 44100 } ∧
    (metadata_callback (fixed_vfs 5 0 100) (streaminfo_block 44100 1000000) bound_info
      fresh_env).1.stream.samples
      = (streaminfo_block 44100 1000000).data.stream_info.total_samples ∧
    (metadata_callback (fixed_vfs 5 0 100) (streaminfo_block 44100 1000000) bound_info
      fresh_env).1.write_pointer = bound_info.write_pointer ∧
    (metadata_callback (fixed_vfs 5 0 100) (streaminfo_block 44100 1000000) bound_info
      fresh_env).1.frame = bound_info.frame :=
  ⟨rfl, by decide,
    (metadata_callback_stream (fixed_vfs 5 0 100) (streaminfo_block 44100 1000000) bound_info
      fresh_env rfl).1,
    (metadata_callback_stream (fixed_vfs 5 0 100) (streaminfo_block 44100 1000000) bound_info
      fresh_env rfl).2.2.2.2.2.1,
    (metadata_callback_stream (fixed_vfs 5 0 100) (streaminfo_block 44100 1000000) bound_info
      fresh_env rfl).2.2.2.2.2.2.2.2⟩

/-- C14: whenever write_callback returns CONTINUE, the frame format (frame.channels,
frame.samplerate, frame.bits_per_sample) equals the frame header's channels, sample_rate and
bits_per_sample, and the stream format, the bitrate, metadata_changed and the file handle
reference are unchanged; the returned status does not depend on the stream format, so a frame
whose format differs from it is accepted all the same. -/
theorem write_callback_records_format (frame : FLAC__Frame) (buffer : Int → Nat → Int)
    (info : callback_info F)
    (hcont : (write_callback frame buffer info).1
      = FLAC__STREAM_DECODER_WRITE_STATUS_CONTINUE) :
    (write_callback frame buffer info).2.frame.channels = frame.header.channels ∧
    (write_callback frame buffer info).2.frame.samplerate = frame.header.sample_rate ∧
    (write_callback frame buffer info).2.frame.bits_per_sample
      = frame.header.bits_per_sample ∧
    (write_callback frame buffer info).2.stream = info.stream ∧
    (write_callback frame buffer info).2.bitrate = info.bitrate ∧
    (write_callback frame buffer info).2.metadata_changed = info.metadata_changed ∧
    (write_callback frame buffer info).2.fd = info.fd ∧
    (∀ stream : stream_info,
      (write_callback frame buffer { info with stream := stream }).1
        = FLAC__STREAM_DECODER_WRITE_STATUS_CONTINUE) := by
  obtain ⟨h1, h2, h3, h4⟩ := write_callback_rest frame buffer info
  have hf := write_callback_frame frame buffer info hcont
  refine ⟨by rw [hf], by rw [hf], by rw [hf], h2, h4, h3, h1, ?_⟩
  intro stream
  rw [write_callback_status] at hcont ⊢
  exact hcont

/-- Witness of C14: the 16-bit stereo frame at 44100 Hz is accepted by a context whose stream
format is all zero, records its format and leaves the stream format alone. -/
theorem write_callback_records_format_witness :
    (write_callback stereo_frame stereo_samples (idle_info 6)).1
      = FLAC__STREAM_DECODER_WRITE_STATUS_CONTINUE ∧
    (idle_info 6).stream = ⟨0, 0, 0, 0⟩ ∧
    (write_callback stereo_frame stereo_samples (idle_info 6)).2.frame.channels = 2 ∧
    (write_callback stereo_frame stereo_samples (idle_info 6)).2.frame.samplerate = 44100 ∧
    (write_callback stereo_frame stereo_samples (idle_info 6)).2.frame.bits_per_sample = 16 ∧
    (write_callback stereo_frame stereo_samples (idle_info 6)).2.stream = (idle_info 6).stream ∧
    (write_callback stereo_frame stereo_samples (idle_info 6)).2.bitrate
      = (idle_info 6).bitrate ∧
    (write_callback stereo_frame stereo_samples (idle_info 6)).2.metadata_changed
      = (idle_info 6).metadata_changed ∧
    (write_callback stereo_frame stereo_samples (idle_info 6)).2.fd = (idle_info 6).fd ∧
    (∀ stream : stream_info,
      (write_callback stereo_frame stereo_samples { idle_info 6 with stream := stream }).1
        = FLAC__STREAM_DECODER_WRITE_STATUS_CONTINUE) :=
  ⟨by decide, rfl,
    write_callback_records_format stereo_frame stereo_samples (idle_info 6) (by decide)⟩

/-- C15: seek_callback invokes the seek primitive once, on the context's handle, with the
given offset and whence SEEK_SET (an absolute seek from the start of the stream); it returns
ERROR if and only if the primitive reports a non-zero status and OK otherwise; the context is
handed back unchanged. -/
theorem seek_callback_outcomes (V : Vfs F W) (offset : Int) (info : callback_info F)
    (env : Env F W) :
    (seek_callback V offset info env).env.trace
      = env.trace ++ [VfsCall.fseek info.fd offset SEEK_SET] ∧
    ((seek_callback V offset info env).status = FLAC__STREAM_DECODER_SEEK_STATUS_ERROR ↔
      (V.fseek env.world info.fd offset SEEK_SET).1 ≠ 0) ∧
    ((seek_callback V offset info env).status = FLAC__STREAM_DECODER_SEEK_STATUS_OK ↔
      (V.fseek env.world info.fd offset SEEK_SET).1 = 0) ∧
    (seek_callback V offset info env).info = info := by
  unfold seek_callback
  simp only [vfs_fseek]
  by_cases h : (V.fseek env.world info.fd offset SEEK_SET).1 = 0
  · rw [if_neg (not_not.mpr h)]
    simp [h]
  · rw [if_pos h]
    simp [h]

/-- Witness of C15: a seek to offset 4096 succeeds on the layer with fixed answers and fails
on the layer that refuses every request. -/
theorem seek_callback_outcomes_witness :
    (seek_callback (fixed_vfs 5 0 100) 4096 bound_info fresh_env).env.trace
      = [VfsCall.fseek (some ()) 4096 0] ∧
    (seek_callback (fixed_vfs 5 0 100) 4096 bound_info fresh_env).status
      = FLAC__STREAM_DECODER_SEEK_STATUS_OK ∧
    (seek_callback refusing_vfs 4096 bound_info fresh_env).status
      = FLAC__STREAM_DECODER_SEEK_STATUS_ERROR ∧
    (seek_callback refusing_vfs 4096 bound_info fresh_env).info = bound_info :=
  ⟨(seek_callback_outcomes (fixed_vfs 5 0 100) 4096 bound_info fresh_env).1,
    (seek_callback_outcomes (fixed_vfs 5 0 100) 4096 bound_info fresh_env).2.2.1.mpr rfl,
    (seek_callback_outcomes refusing_vfs 4096 bound_info fresh_env).2.1.mpr (by decide),
    (seek_callback_outcomes refusing_vfs 4096 bound_info fresh_env).2.2.2⟩

/-- C16: for a tell primitive whose result is a `gint64` value, tell_callback returns ERROR
if and only if the primitive returns the sentinel -1; for every position p (a non-negative
result) it returns OK with the reported offset equal to p; the context is handed back
unchanged. -/
theorem tell_callback_outcomes (V : Vfs F W) (info : callback_info F) (env : Env F W)
    (hrange : -9223372036854775808 ≤ (V.ftell env.world info.fd).1 ∧
      (V.ftell env.world info.fd).1 < 9223372036854775808) :
    ((tell_callback V info env).status = FLAC__STREAM_DECODER_TELL_STATUS_ERROR ↔
      (V.ftell env.world info.fd).1 = -1) ∧
    (∀ p : Nat, (V.ftell env.world info.fd).1 = (p : Int) →
      (tell_callback V info env).status = FLAC__STREAM_DECODER_TELL_STATUS_OK ∧
      (tell_callback V info env).offset = (p : Int)) ∧
    (tell_callback V info env).info = info := by
  have hsent : toUInt64 (-1) = 18446744073709551615 := by decide
  unfold tell_callback
  simp only [vfs_ftell, hsent]
  by_cases h : toUInt64 (V.ftell env.world info.fd).1 = 18446744073709551615
  · have hr : (V.ftell env.world info.fd).1 = -1 := by
      unfold toUInt64 at h
      omega
    rw [if_pos h]
    refine ⟨by simp [hr], ?_, rfl⟩
    intro p hp
    omega
  · have hr : (V.ftell env.world info.fd).1 ≠ -1 := by
      intro hneg
      rw [hneg] at h
      exact h hsent
    rw [if_neg h]
    refine ⟨by simp [hr], ?_, rfl⟩
    intro p hp
    refine ⟨rfl, ?_⟩
    show toUInt64 (V.ftell env.world info.fd).1 = (p : Int)
    rw [hp]
    unfold toUInt64
    omega

/-- Witness of C16: the layer with fixed answers reports position 4096, the refusing layer
reports -1. -/
theorem tell_callback_outcomes_witness :
    (-9223372036854775808 ≤ ((fixed_vfs 5 4096 100).ftell fresh_env.world bound_info.fd).1 ∧
      ((fixed_vfs 5 4096 100).ftell fresh_env.world bound_info.fd).1 < 9223372036854775808) ∧
    ((tell_callback (fixed_vfs 5 4096 100) bound_info fresh_env).status
        = FLAC__STREAM_DECODER_TELL_STATUS_OK ∧
      (tell_callback (fixed_vfs 5 4096 100) bound_info fresh_env).offset = ((4096 : Nat) : Int)) ∧
    (tell_callback refusing_vfs bound_info fresh_env).status
      = FLAC__STREAM_DECODER_TELL_STATUS_ERROR ∧
    (tell_callback refusing_vfs bound_info fresh_env).info = bound_info :=
  ⟨by decide,
    (tell_callback_outcomes (fixed_vfs 5 4096 100) bound_info fresh_env (by decide)).2.1
      4096 rfl,
    (tell_callback_outcomes refusing_vfs bound_info fresh_env (by decide)).1.mpr rfl,
    (tell_callback_outcomes refusing_vfs bound_info fresh_env (by decide)).2.2⟩

/-! ## Acceptance, reported counts and the written segment -/

/-- The two tests of write_callback, for every frame: the call returns CONTINUE if and only
if buffer_free is at least the 32-bit product of the capacity test and bits_per_sample is
one of 8, 16, 24, 32; otherwise it returns ABORT. -/
theorem write_callback_accepts_iff (frame : FLAC__Frame) (buffer : Int → Nat → Int)
    (info : callback_info F) :
    ((write_callback frame buffer info).1 = FLAC__STREAM_DECODER_WRITE_STATUS_CONTINUE ↔
      ((((frame.header.blocksize * frame.header.channels) % 4294967296 : Nat) : Int)
          ≤ info.buffer_free ∧
        (frame.header.bits_per_sample = 8 ∨ frame.header.bits_per_sample = 16 ∨
          frame.header.bits_per_sample = 24 ∨ frame.header.bits_per_sample = 32))) ∧
    (¬ ((((frame.header.blocksize * frame.header.channels) % 4294967296 : Nat) : Int)
          ≤ info.buffer_free ∧
        (frame.header.bits_per_sample = 8 ∨ frame.header.bits_per_sample = 16 ∨
          frame.header.bits_per_sample = 24 ∨ frame.header.bits_per_sample = 32)) →
      (write_callback frame buffer info).1 = FLAC__STREAM_DECODER_WRITE_STATUS_ABORT) := by
  rw [write_callback_status]
  constructor
  · constructor
    · intro h
      split_ifs at h with h1 h2
      exact ⟨not_lt.mp h1, by omega⟩
    · rintro ⟨h1, h2⟩
      rw [if_neg (not_lt.mpr h1), if_neg (by omega)]
  · intro h
    split_ifs with h1 h2
    · rfl
    · rfl
    · exact absurd ⟨not_lt.mp h1, by omega⟩ h

/-- C18 (amended): for every bound handle and every requested count N (a `size_t`), the
value of N after read_callback is at most the value on entry whenever no error is reported:
when N is 0 (no read is made) and when the read primitive obtains between 0 and N bytes.
When the primitive reports an error (-1) for N > 0, the call returns ABORT and N holds the
conversion of -1 to `size_t`, 2^64 - 1. -/
theorem read_callback_count (V : Vfs F W) (buffer : List Nat) (bytes : Int)
    (info : callback_info F) (env : Env F W) (fd : F) (hfd : info.fd = some fd)
    (hsize : bytes < 18446744073709551616) :
    ((bytes = 0 ∨ (0 ≤ (V.fread env.world buffer 1 bytes (some fd)).1 ∧
        (V.fread env.world buffer 1 bytes (some fd)).1 ≤ bytes)) →
      (read_callback V buffer bytes info env).bytes ≤ bytes) ∧
    (bytes ≠ 0 → (V.fread env.world buffer 1 bytes (some fd)).1 = -1 →
      (read_callback V buffer bytes info env).status = FLAC__STREAM_DECODER_READ_STATUS_ABORT ∧
      (read_callback V buffer bytes info env).bytes = 18446744073709551615) := by
  have hsent : toUInt64 (-1) = 18446744073709551615 := by decide
  unfold read_callback
  simp only [hfd, Option.isNone_some, Bool.false_eq_true, if_false, vfs_fread]
  constructor
  · intro h
    by_cases h0 : bytes = 0
    · rw [if_pos h0]
    · rw [if_neg h0]
      have hr : 0 ≤ (V.fread env.world buffer 1 bytes (some fd)).1 ∧
          (V.fread env.world buffer 1 bytes (some fd)).1 ≤ bytes := by
        rcases h with h | h
        · exact absurd h h0
        · exact h
      have hconv : toUInt64 (V.fread env.world buffer 1 bytes (some fd)).1
          = (V.fread env.world buffer 1 bytes (some fd)).1 := by
        unfold toUInt64
        omega
      split_ifs <;> simp only [hconv] <;> exact hr.2
  · intro h0 hr
    rw [if_neg h0, hr, hsent, if_pos rfl]
    exact ⟨rfl, rfl⟩

/-- Witness of C18: 8 bytes requested, 5 obtained: N is 5 afterwards. -/
theorem read_callback_count_witness :
    bound_info.fd = some () ∧ (8 : Int) < 18446744073709551616 ∧
    (read_callback (fixed_vfs 5 0 100) [] 8 bound_info fresh_env).bytes ≤ 8 ∧
    (read_callback (fixed_vfs 5 0 100) [] 8 bound_info fresh_env).bytes = 5 :=
  ⟨rfl, by decide,
    (read_callback_count (fixed_vfs 5 0 100) [] 8 bound_info fresh_env () rfl (by decide)).1
      (Or.inr ⟨by decide, by decide⟩),
    by decide⟩

/-- Counterexample to C18 as stated: 8 bytes are requested from a bound handle whose read
reports an error; the call returns ABORT and N is 2^64 - 1 afterwards, more than 8. -/
theorem read_callback_count_counterexample :
    bound_info.fd = some () ∧
    (refusing_vfs.fread fresh_env.world [] 1 8 bound_info.fd).1 = -1 ∧
    (read_callback refusing_vfs [] 8 bound_info fresh_env).status
      = FLAC__STREAM_DECODER_READ_STATUS_ABORT ∧
    (read_callback refusing_vfs [] 8 bound_info fresh_env).bytes = 18446744073709551615 ∧
    ¬ ((read_callback refusing_vfs [] 8 bound_info fresh_env).bytes ≤ 8) := by
  refine ⟨rfl, rfl, by decide, by decide, by decide⟩

/-- Two frames in a row, each of at most 32768 channels and of supported depth, whose word
counts together do not exceed buffer_free: both calls return CONTINUE and leave the
interleaving of the first frame followed at once by that of the second, the cursor and the
counters moved by the sum of the word counts, and the format of the second frame. -/
theorem write_callback_two_frames (f1 f2 : FLAC__Frame) (b1 b2 : Int → Nat → Int)
    (info : callback_info F)
    (hbits1 : f1.header.bits_per_sample = 8 ∨ f1.header.bits_per_sample = 16 ∨
      f1.header.bits_per_sample = 24 ∨ f1.header.bits_per_sample = 32)
    (hbits2 : f2.header.bits_per_sample = 8 ∨ f2.header.bits_per_sample = 16 ∨
      f2.header.bits_per_sample = 24 ∨ f2.header.bits_per_sample = 32)
    (hchan1 : f1.header.channels ≤ 32768) (hchan2 : f2.header.channels ≤ 32768)
    (hfit : ((f1.header.blocksize * f1.header.channels
      + f2.header.blocksize * f2.header.channels : Nat) : Int) ≤ info.buffer_free) :
    (write_callback f1 b1 info).1 = FLAC__STREAM_DECODER_WRITE_STATUS_CONTINUE ∧
    (write_callback f2 b2 (write_callback f1 b1 info).2).1
      = FLAC__STREAM_DECODER_WRITE_STATUS_CONTINUE ∧
    (∀ i c : Nat, i < f1.header.blocksize → c < f1.header.channels →
      (write_callback f2 b2 (write_callback f1 b1 info).2).2.output_buffer
          (info.write_pointer + i * f1.header.channels + c) = b1 (c : Int) i) ∧
    (∀ i c : Nat, i < f2.header.blocksize → c < f2.header.channels →
      (write_callback f2 b2 (write_callback f1 b1 info).2).2.output_buffer
          (info.write_pointer + f1.header.blocksize * f1.header.channels
            + i * f2.header.channels + c) = b2 (c : Int) i) ∧
    (write_callback f2 b2 (write_callback f1 b1 info).2).2.write_pointer
      = info.write_pointer + f1.header.blocksize * f1.header.channels
        + f2.header.blocksize * f2.header.channels ∧
    (write_callback f2 b2 (write_callback f1 b1 info).2).2.buffer_used
      = info.buffer_used + ((f1.header.blocksize * f1.header.channels
        + f2.header.blocksize * f2.header.channels : Nat) : Int) ∧
    (write_callback f2 b2 (write_callback f1 b1 info).2).2.buffer_free
      = info.buffer_free - ((f1.header.blocksize * f1.header.channels
        + f2.header.blocksize * f2.header.channels : Nat) : Int) ∧
    (write_callback f2 b2 (write_callback f1 b1 info).2).2.frame
      = { channels := f2.header.channels
          samplerate := f2.header.sample_rate
          bits_per_sample := f2.header.bits_per_sample } := by
  have hfit1 : ((f1.header.blocksize * f1.header.channels : Nat) : Int) ≤ info.buffer_free := by
    push_cast at hfit ⊢
    have : (0 : Int) ≤ (f2.header.blocksize : Int) * (f2.header.channels : Int) := by positivity
    omega
  have h1 := write_callback_accept_fit f1 b1 info hbits1 hchan1 hfit1
  rw [h1]
  have hfit2 : ((f2.header.blocksize * f2.header.channels : Nat) : Int)
      ≤ (stored
          ({ info with
              frame :=
                { channels := f1.header.channels
                  samplerate := f1.header.sample_rate
                  bits_per_sample := f1.header.bits_per_sample } } : callback_info F)
          (f1.header.blocksize * f1.header.channels)
          (fun k => b1 (((k % f1.header.channels : Nat) : Int))
            (k / f1.header.channels))).buffer_free := by
    simp only [stored]
    push_cast at hfit ⊢
    omega
  have h2 := write_callback_accept_fit f2 b2 _ hbits2 hchan2 hfit2
  rw [h2]
  refine ⟨rfl, rfl, ?_, ?_, ?_, ?_, ?_, rfl⟩
  · intro i c hi hc
    obtain ⟨hlt, hmod, hdiv⟩ := interleave_place _ _ i c hi hc
    have hidx : info.write_pointer + i * f1.header.channels + c
        = info.write_pointer + (i * f1.header.channels + c) := by omega
    rw [stored_read_outside _ _ _ _ (Or.inl (by simp only [stored]; omega)), hidx]
    simp only [stored]
    rw [if_pos ⟨by omega, by omega⟩, Nat.add_sub_cancel_left, hmod, hdiv]
  · intro i c hi hc
    obtain ⟨hlt, hmod, hdiv⟩ := interleave_place _ _ i c hi hc
    have hidx : info.write_pointer + f1.header.blocksize * f1.header.channels
          + i * f2.header.channels + c
        = (info.write_pointer + f1.header.blocksize * f1.header.channels)
          + (i * f2.header.channels + c) := by omega
    rw [hidx]
    simp only [stored]
    rw [if_pos ⟨by omega, by omega⟩, Nat.add_sub_cancel_left, hmod, hdiv]
  · simp only [stored]
  · simp only [stored]
    push_cast
    ring
  · simp only [stored]
    push_cast
    ring

/-- C19: for every two frames f1 and f2 the decoder delivers, with supported bit depths and
word counts that together do not exceed buffer_free, write_callback on f1 and then on f2
returns CONTINUE twice and leaves, from the original write cursor p on, the interleaving of
f1 (word p + i*channels1 + c is buffer1[c][i]) immediately followed by the interleaving of
f2 (word p + blocksize1*channels1 + i*channels2 + c is buffer2[c][i]); the cursor and
buffer_used have advanced by the sum of the two word counts, buffer_free has dropped by it,
and the frame format is that of the header of f2. -/
theorem write_callback_appends (f1 f2 : FLAC__Frame) (b1 b2 : Int → Nat → Int)
    (info : callback_info F) (hdeliv1 : deliverable f1) (hdeliv2 : deliverable f2)
    (hbits1 : f1.header.bits_per_sample = 8 ∨ f1.header.bits_per_sample = 16 ∨
      f1.header.bits_per_sample = 24 ∨ f1.header.bits_per_sample = 32)
    (hbits2 : f2.header.bits_per_sample = 8 ∨ f2.header.bits_per_sample = 16 ∨
      f2.header.bits_per_sample = 24 ∨ f2.header.bits_per_sample = 32)
    (hfit : ((f1.header.blocksize * f1.header.channels
      + f2.header.blocksize * f2.header.channels : Nat) : Int) ≤ info.buffer_free) :
    (write_callback f1 b1 info).1 = FLAC__STREAM_DECODER_WRITE_STATUS_CONTINUE ∧
    (write_callback f2 b2 (write_callback f1 b1 info).2).1
      = FLAC__STREAM_DECODER_WRITE_STATUS_CONTINUE ∧
    (∀ i c : Nat, i < f1.header.blocksize → c < f1.header.channels →
      (write_callback f2 b2 (write_callback f1 b1 info).2).2.output_buffer
          (info.write_pointer + i * f1.header.channels + c) = b1 (c : Int) i) ∧
    (∀ i c : Nat, i < f2.header.blocksize → c < f2.header.channels →
      (write_callback f2 b2 (write_callback f1 b1 info).2).2.output_buffer
          (info.write_pointer + f1.header.blocksize * f1.header.channels
            + i * f2.header.channels + c) = b2 (c : Int) i) ∧
    (write_callback f2 b2 (write_callback f1 b1 info).2).2.write_pointer
      = info.write_pointer + f1.header.blocksize * f1.header.channels
        + f2.header.blocksize * f2.header.channels ∧
    (write_callback f2 b2 (write_callback f1 b1 info).2).2.buffer_used
      = info.buffer_used + ((f1.header.blocksize * f1.header.channels
        + f2.header.blocksize * f2.header.channels : Nat) : Int) ∧
    (write_callback f2 b2 (write_callback f1 b1 info).2).2.buffer_free
      = info.buffer_free - ((f1.header.blocksize * f1.header.channels
        + f2.header.blocksize * f2.header.channels : Nat) : Int) ∧
    (write_callback f2 b2 (write_callback f1 b1 info).2).2.frame
      = { channels := f2.header.channels
          samplerate := f2.header.sample_rate
          bits_per_sample := f2.header.bits_per_sample } :=
  write_callback_two_frames f1 f2 b1 b2 info hbits1 hbits2
    (deliverable_bounds f1 hdeliv1).1 (deliverable_bounds f2 hdeliv2).1 hfit

/-- Witness of C19: the stereo frame of three samples and then the mono frame of two
samples, written into an empty buffer with eight free words, leave the words
[11, 21, 12, 22, 13, 23, 31, 32], eight words used, none free and the mono format. -/
theorem write_callback_appends_witness :
    deliverable stereo_frame ∧ deliverable mono_frame ∧
    ((stereo_frame.header.blocksize * stereo_frame.header.channels
      + mono_frame.header.blocksize * mono_frame.header.channels : Nat) : Int)
      ≤ (idle_info 8).buffer_free ∧
    ((write_callback stereo_frame stereo_samples (idle_info 8)).1
      = FLAC__STREAM_DECODER_WRITE_STATUS_CONTINUE ∧
    (write_callback mono_frame mono_samples
      (write_callback stereo_frame stereo_samples (idle_info 8)).2).1
      = FLAC__STREAM_DECODER_WRITE_STATUS_CONTINUE ∧
    (∀ i c : Nat, i < stereo_frame.header.blocksize → c < stereo_frame.header.channels →
      (write_callback mono_frame mono_samples
        (write_callback stereo_frame stereo_samples (idle_info 8)).2).2.output_buffer
          ((idle_info 8).write_pointer + i * stereo_frame.header.channels + c)
        = stereo_samples (c : Int) i) ∧
    (∀ i c : Nat, i < mono_frame.header.blocksize → c < mono_frame.header.channels →
      (write_callback mono_frame mono_samples
        (write_callback stereo_frame stereo_samples (idle_info 8)).2).2.output_buffer
          ((idle_info 8).write_pointer
            + stereo_frame.header.blocksize * stereo_frame.header.channels
            + i * mono_frame.header.channels + c)
        = mono_samples (c : Int) i) ∧
    (write_callback mono_frame mono_samples
      (write_callback stereo_frame stereo_samples (idle_info 8)).2).2.write_pointer
      = (idle_info 8).write_pointer
        + stereo_frame.header.blocksize * stereo_frame.header.channels
        + mono_frame.header.blocksize * mono_frame.header.channels ∧
    (write_callback mono_frame mono_samples
      (write_callback stereo_frame stereo_samples (idle_info 8)).2).2.buffer_used
      = (idle_info 8).buffer_used
        + ((stereo_frame.header.blocksize * stereo_frame.header.channels
          + mono_frame.header.blocksize * mono_frame.header.channels : Nat) : Int) ∧
    (write_callback mono_frame mono_samples
      (write_callback stereo_frame stereo_samples (idle_info 8)).2).2.buffer_free
      = (idle_info 8).buffer_free
        - ((stereo_frame.header.blocksize * stereo_frame.header.channels
          + mono_frame.header.blocksize * mono_frame.header.channels : Nat) : Int) ∧
    (write_callback mono_frame mono_samples
      (write_callback stereo_frame stereo_samples (idle_info 8)).2).2.frame
      = { channels := mono_frame.header.channels
          samplerate := mono_frame.header.sample_rate
          bits_per_sample := mono_frame.header.bits_per_sample }) ∧
    (List.range 8).map (write_callback mono_frame mono_samples
      (write_callback stereo_frame stereo_samples (idle_info 8)).2).2.output_buffer
      = [11, 21, 12, 22, 13, 23, 31, 32] ∧
    (write_callback mono_frame mono_samples
      (write_callback stereo_frame stereo_samples (idle_info 8)).2).2.buffer_used = 8 :=
  ⟨⟨by decide, by decide⟩, ⟨by decide, by decide⟩, by decide,
    write_callback_appends stereo_frame mono_frame stereo_samples mono_samples (idle_info 8)
      ⟨by decide, by decide⟩ ⟨by decide, by decide⟩ (by decide) (by decide) (by decide),
    by decide, by decide⟩

/-- The words an accepting call can change, for every frame with a 32-bit channel count:
none below the entry cursor, none at or beyond entry cursor + blocksize*channels and none at
or beyond the new cursor, which has not moved back; when blocksize*channels < 2^32 the cursor
has passed at most buffer_free words. -/
theorem write_callback_written_range (frame : FLAC__Frame) (buffer : Int → Nat → Int)
    (info : callback_info F) (hch : frame.header.channels < 4294967296)
    (hcont : (write_callback frame buffer info).1
      = FLAC__STREAM_DECODER_WRITE_STATUS_CONTINUE) :
    (∀ a : Nat, a < info.write_pointer ∨
        info.write_pointer + frame.header.blocksize * frame.header.channels ≤ a →
      (write_callback frame buffer info).2.output_buffer a = info.output_buffer a) ∧
    info.write_pointer ≤ (write_callback frame buffer info).2.write_pointer ∧
    (∀ a : Nat, (write_callback frame buffer info).2.write_pointer ≤ a →
      (write_callback frame buffer info).2.output_buffer a = info.output_buffer a) ∧
    (frame.header.blocksize * frame.header.channels < 4294967296 →
      (((write_callback frame buffer info).2.write_pointer - info.write_pointer : Nat) : Int)
        ≤ info.buffer_free) := by
  rw [write_callback_status] at hcont
  have hfree : (((frame.header.blocksize * frame.header.channels) % 4294967296 : Nat) : Int)
      ≤ info.buffer_free := by
    split_ifs at hcont with h1
    exact not_lt.mp h1
  have hbits : frame.header.bits_per_sample = 8 ∨ frame.header.bits_per_sample = 16 ∨
      frame.header.bits_per_sample = 24 ∨ frame.header.bits_per_sample = 32 := by
    split_ifs at hcont with h1 h2
    omega
  rw [write_callback_accept frame buffer info hch hfree hbits]
  have hT := channel_trips_le _ hch
  have hn : frame.header.blocksize * channel_trips frame.header.channels
      ≤ frame.header.blocksize * frame.header.channels := Nat.mul_le_mul_left _ hT
  refine ⟨?_, ?_, ?_, ?_⟩
  · intro a ha
    rw [stored_read_outside _ _ _ _ (by simp only []; omega)]
  · simp only [stored]
    omega
  · intro a ha
    rw [stored_read_outside _ _ _ _ (by simp only [stored] at ha ⊢; omega)]
  · intro hprod
    rw [Nat.mod_eq_of_lt hprod] at hfree
    simp only [stored]
    omega

/-- C20: for every frame the decoder delivers, whenever write_callback returns CONTINUE every
output buffer word at an index below the entry write cursor or at or beyond entry cursor +
blocksize*channels is unchanged, so previously written samples are never overwritten; the
segment written ends at the new cursor, entry cursor + blocksize*channels, and holds at most
buffer_free words, the free capacity at entry. -/
theorem write_callback_segment (frame : FLAC__Frame) (buffer : Int → Nat → Int)
    (info : callback_info F) (hdeliv : deliverable frame)
    (hcont : (write_callback frame buffer info).1
      = FLAC__STREAM_DECODER_WRITE_STATUS_CONTINUE) :
    (∀ a : Nat, a < info.write_pointer ∨
        info.write_pointer + frame.header.blocksize * frame.header.channels ≤ a →
      (write_callback frame buffer info).2.output_buffer a = info.output_buffer a) ∧
    (write_callback frame buffer info).2.write_pointer
      = info.write_pointer + frame.header.blocksize * frame.header.channels ∧
    ((frame.header.blocksize * frame.header.channels : Nat) : Int) ≤ info.buffer_free := by
  obtain ⟨hchan, hprod, hmod⟩ := deliverable_bounds frame hdeliv
  have hiff := (write_callback_accepts_iff frame buffer info).1.mp hcont
  rw [hmod] at hiff
  obtain ⟨hfit, hbits⟩ := hiff
  rw [write_callback_accept_fit frame buffer info hbits hchan hfit]
  refine ⟨?_, rfl, hfit⟩
  intro a ha
  rw [stored_read_outside _ _ _ _ (by simp only []; omega)]

/-- Witness of C20: the stereo frame of three samples written at cursor 0 into a buffer with
six free words changes no word from index 6 on and moves the cursor by six. -/
theorem write_callback_segment_witness :
    deliverable stereo_frame ∧
    (write_callback stereo_frame stereo_samples (idle_info 6)).1
      = FLAC__STREAM_DECODER_WRITE_STATUS_CONTINUE ∧
    ((∀ a : Nat, a < (idle_info 6).write_pointer ∨
        (idle_info 6).write_pointer
          + stereo_frame.header.blocksize * stereo_frame.header.channels ≤ a →
      (write_callback stereo_frame stereo_samples (idle_info 6)).2.output_buffer a
        = (idle_info 6).output_buffer a) ∧
    (write_callback stereo_frame stereo_samples (idle_info 6)).2.write_pointer
      = (idle_info 6).write_pointer
        + stereo_frame.header.blocksize * stereo_frame.header.channels ∧
    ((stereo_frame.header.blocksize * stereo_frame.header.channels : Nat) : Int)
      ≤ (idle_info 6).buffer_free) :=
  ⟨⟨by decide, by decide⟩, by decide,
    write_callback_segment stereo_frame stereo_samples (idle_info 6)
      ⟨by decide, by decide⟩ (by decide)⟩

end Flacng
